import Mathlib

/-!
Verification development for the clusterctl provider-lifecycle core
(provider metadata registry, components reconciler/teardown, pivot
orchestrator).  The Go sources are embedded shallowly: remote object
stores become explicit lists, the Kubernetes client operations become
pure functions on those lists, and error returns become `Option` /
`Except` values.
-/

/-- A provider record, as persisted by the metadata registry
(`clusterctlv1.Provider`): target namespace, name, type, version and
watched namespace.  All fields are strings, as in the source. -/
structure Provider where
  ns : String
  name : String
  ptype : String
  version : String
  watchedNamespace : String
deriving DecidableEq, Repr

/-- Filter options of `metadataClient.list` (`listOptions`): an empty
field means "no filter on this field". -/
structure ListOptions where
  ns : String
  name : String
  ptype : String
deriving DecidableEq, Repr

/-- One record passes the `metadataClient.list` filter: each non-empty
option field must match the corresponding record field (the three
`continue` conditions of the Go loop). -/
def providerMatches (o : ListOptions) (p : Provider) : Bool :=
  (o.name == "" || p.name == o.name) &&
  (o.ns == "" || p.ns == o.ns) &&
  (o.ptype == "" || p.ptype == o.ptype)

/-- `metadataClient.list`: all records of the store passing the filter,
in store order. -/
def listProviders (o : ListOptions) (records : List Provider) : List Provider :=
  records.filter (fun p => providerMatches o p)

/-- The four rejection reasons of `metadataClient.Validate`. -/
inductive ValidationError
  | sameNamespaceConflict
  | versionConflict
  | watchAllConflict
  | watchedNamespaceConflict
deriving DecidableEq, Repr

/-- `metadataClient.Validate`: look up all instances with the candidate's
name, then run the namespace, version and watched-namespace checks in
order; `none` means the candidate is accepted. -/
def validate (m : Provider) (records : List Provider) : Option ValidationError :=
  let instances := listProviders ⟨"", m.name, ""⟩ records
  if instances.isEmpty then none
  else if instances.any (fun i => i.ns == m.ns) then
    some .sameNamespaceConflict
  else if !(instances.any (fun i => i.version == m.version)) then
    some .versionConflict
  else if m.watchedNamespace == "" then
    some .watchAllConflict
  else if instances.any (fun i => i.watchedNamespace == "" || m.watchedNamespace == i.watchedNamespace) then
    some .watchedNamespaceConflict
  else none

/-- The single distinguishing value of a `sets.String`: the element when
the set of values is a singleton, otherwise the empty string (mirrors
`names.Len() == 1` / `names.List()[0]` in the Go defaulting helpers). -/
def uniqueStr (l : List String) : String :=
  match l.dedup with
  | [x] => x
  | _ => ""

/-- `metadataClient.GetDefaultProvider`: the sole distinct name of the
records matching the given type, else empty. -/
def getDefaultProvider (ptype : String) (records : List Provider) : String :=
  uniqueStr ((listProviders ⟨"", "", ptype⟩ records).map (fun p => p.name))

/-- `metadataClient.GetDefaultVersion`: the sole distinct version of the
records matching the given name, else empty. -/
def getDefaultVersion (name : String) (records : List Provider) : String :=
  uniqueStr ((listProviders ⟨"", name, ""⟩ records).map (fun p => p.version))

/-- `metadataClient.GetDefaultNamespace`: the sole distinct namespace of
the records matching the given name, else empty. -/
def getDefaultNamespace (name : String) (records : List Provider) : String :=
  uniqueStr ((listProviders ⟨"", name, ""⟩ records).map (fun p => p.ns))

/-- Result of one `EnsureMetadata` run: the store after the call, the
returned boolean (`alreadyExisted`) and the returned error. -/
structure EnsureMetadataResult where
  store : List String
  alreadyExisted : Bool
  err : Option String
deriving DecidableEq, Repr

/-- The create loop of `metadataClient.EnsureMetadata` over the parsed
schema objects (identified by their identity string): creating an object
that is already present is the `AlreadyExists` case and makes the call
return `(true, nil)` at once; when every create succeeds the call
returns `(false, nil)` (the final `errors.Wrapf(err, ...)` wraps a nil
error, hence is nil). -/
def ensureMetadataLoop (store : List String) : List String → EnsureMetadataResult
  | [] => ⟨store, false, none⟩
  | o :: rest =>
    if store.contains o then ⟨store, true, none⟩
    else ensureMetadataLoop (store ++ [o]) rest

/-- `metadataClient.EnsureMetadata`, given the registry's schema objects
(the parsed content of `manifest/clusterctl-api.yaml`, which is data
baked into the binary, not source) and the current store. -/
def ensureMetadata (schemaObjs : List String) (store : List String) : EnsureMetadataResult :=
  ensureMetadataLoop store schemaObjs

/-- The final deletion phase of `moverService.Pivot`: for the provider at
the head of the remaining queue, `forceDeleteCRD` starts `true` and is
set to `false` by any provider in `providers[i:]` (the scan starts at
the provider itself) sharing its name; `forceDeleteNamespace` is the
constant `false`.  Returns the `(provider, forceDeleteNamespace,
forceDeleteCRD)` triples passed to `Delete`, in call order. -/
def pivotDeleteCalls : List Provider → List (Provider × Bool × Bool)
  | [] => []
  | p :: rest =>
    (p, false,
      (p :: rest).foldl (fun acc pnext => if p.name == pnext.name then false else acc) true)
      :: pivotDeleteCalls rest

/-- An unstructured manifest object: group/version/kind (its GVK),
namespace, name and labels.  This is the projection of
`unstructured.Unstructured` that the reconciler, teardown and bundle
builder inspect. -/
structure UObj where
  group : String
  version : String
  kind : String
  ns : String
  name : String
  labels : List (String × String)
deriving DecidableEq, Repr

/-- The identity used by the reconciler and the sorter to decide whether
two objects are the same resource: GVK plus namespace plus name (labels
and any payload are not part of the identity). -/
def identKey (o : UObj) : String × String × String × String × String :=
  (o.group, o.version, o.kind, o.ns, o.name)

/-- The Go comparison `o.GroupVersionKind() == r.GroupVersionKind() &&
o.GetNamespace() == r.GetNamespace() && o.GetName() == r.GetName()`. -/
def sameObj (a b : UObj) : Bool :=
  identKey a == identKey b

/-- `defaultCreatePriorities`: the fixed kind priority order used when
creating provider components. -/
def defaultCreatePriorities : List String :=
  ["Namespace", "CustomResourceDefinition", "StorageClass", "PersistentVolume",
   "PersistentVolumeClaim", "Secret", "ConfigMap", "ServiceAccount", "LimitRange",
   "Pods", "ReplicaSet", "Endpoints"]

/-- Second loop of `sortResourcesForCreate`: append every resource whose
GVK/namespace/name does not already occur in the accumulated output. -/
def sortPhase2 (ret : List UObj) : List UObj → List UObj
  | [] => ret
  | o :: rest =>
    if ret.any (fun r => sameObj r o) then sortPhase2 ret rest
    else sortPhase2 (ret ++ [o]) rest

/-- `sortResourcesForCreate`: first emit the resources of each priority
kind, in priority order (and bundle order within one kind), then every
remaining resource not already emitted. -/
def sortResourcesForCreate (resources : List UObj) : List UObj :=
  sortPhase2
    (defaultCreatePriorities.foldl
      (fun ret p => ret ++ resources.filter (fun o => o.kind == p)) [])
    resources

/-- The spec-shaped description of the priority pass: for each priority
kind in order, all bundle objects of that kind in bundle order. -/
def prioritizedPart (resources : List UObj) : List UObj :=
  (defaultCreatePriorities.map (fun p => resources.filter (fun o => o.kind == p))).flatten

/-- The two operations `providerComponents.Create` can issue for one
object. -/
inductive OpKind
  | create
  | update
deriving DecidableEq, Repr

/-- The per-object step of `providerComponents.Create`: `Get` the object
by GVK and key; on `NotFound` create it, otherwise update it (with the
stored resource version as optimistic lock).  Returns the issued
operation and the store after it. -/
def createStep (store : List UObj) (r : UObj) : (OpKind × UObj) × List UObj :=
  if store.any (fun c => sameObj c r) then ((.update, r), store)
  else ((.create, r), store ++ [r])

/-- The create-or-update loop of `providerComponents.Create`, threading
the target store through the sorted resources. -/
def createLoop (store : List UObj) : List UObj → List (OpKind × UObj)
  | [] => []
  | r :: rest =>
    let s := createStep store r
    s.1 :: createLoop s.2 rest

/-- `providerComponents.Create`: sort the bundle objects with
`sortResourcesForCreate`, then issue one create-or-update per object in
that order. -/
def createOps (store : List UObj) (bundleObjs : List UObj) : List (OpKind × UObj) :=
  createLoop store (sortResourcesForCreate bundleObjs)

/-- `isResourceNamespaced` (repository/components.go): every kind is
namespaced except the listed cluster-scoped ones. -/
def isResourceNamespaced (kind : String) : Bool :=
  match kind with
  | "Namespace" | "Node" | "PersistentVolume" | "PodSecurityPolicy"
  | "CertificateSigningRequest" | "ClusterRoleBinding" | "ClusterRole"
  | "VolumeAttachment" | "StorageClass" | "CSIDriver" | "CSINode"
  | "ValidatingWebhookConfiguration" | "MutatingWebhookConfiguration"
  | "CustomResourceDefinition" | "PriorityClass" | "RuntimeClass" => false
  | _ => true

/-- An object carries all the requested labels with the requested
values (`client.MatchingLabels`). -/
def matchesLabels (req : List (String × String)) (o : UObj) : Bool :=
  req.all (fun kv => o.labels.contains kv)

/-- `k8sproxy.ListResources(namespace, labels)` membership semantics:
an object is returned iff it carries the labels and, when a namespace is
given, it is cluster-scoped or lives in that namespace (the
`InNamespace` selector is added only for namespaced kinds).  The
discovery walk is modelled as one pass over the store; every kind is
assumed listable and deletable. -/
def listResources (ns : String) (req : List (String × String)) (store : List UObj) : List UObj :=
  store.filter (fun o =>
    matchesLabels req o && (ns == "" || !(isResourceNamespaced o.kind) || o.ns == ns))

/-- The provider label key `clusterctlv1.ClusterctlProviderLabelName`
(declared in the api package, outside these sources; its exact value is
irrelevant to the claims, only its identity matters). -/
def clusterctlProviderLabelName : String := "clusterctl.cluster.x-k8s.io/provider"

/-- The clusterctl ownership label key `clusterctlv1.ClusterctlLabelName`
(declared in the api package, outside these sources). -/
def clusterctlLabelName : String := "clusterctl.cluster.x-k8s.io"

/-- The set of objects `providerComponents.Delete` issues delete
operations for: list the objects labeled with the provider in the
provider's namespace; keep CRDs out unless `forceDeleteCRD`; keep the
Namespace out unless `forceDeleteNamespace`, and when the namespace is
force-deleted drop every listed object lying in one of the listed
Namespace objects (the namespace controller will cascade them). -/
def deleteTargets (provider : Provider) (forceDeleteNamespace forceDeleteCRD : Bool)
    (store : List UObj) : List UObj :=
  let resources := listResources provider.ns [(clusterctlProviderLabelName, provider.name)] store
  let resources :=
    if !forceDeleteCRD then
      resources.filter (fun r => r.kind != "CustomResourceDefinition")
    else resources
  if !forceDeleteNamespace then
    resources.filter (fun r => r.kind != "Namespace")
  else
    let nss := (resources.filter (fun r => r.kind == "Namespace")).map (fun r => r.name)
    resources.filter (fun r => !(nss.contains r.ns))

/-- `inspectTargetNamespace`: the name of the Namespace object of a
manifest, erroring when a second Namespace object is met after a first
one with a non-empty name. -/
def inspectTargetNamespaceLoop (acc : String) : List UObj → Except String String
  | [] => .ok acc
  | o :: rest =>
    if o.kind == "Namespace" then
      if acc != "" then .error "more than one Namespace object"
      else inspectTargetNamespaceLoop o.name rest
    else inspectTargetNamespaceLoop acc rest

/-- Entry point of `inspectTargetNamespace` over a parsed manifest. -/
def inspectTargetNamespace (objs : List UObj) : Except String String :=
  inspectTargetNamespaceLoop "" objs

/-- The per-object body of the `fixTargetNamespace` loop: rename a
Namespace object to the target namespace, and force a namespaced object
into the target namespace. -/
def fixObjNamespace (targetNamespace : String) (o : UObj) : UObj :=
  let o := if o.kind == "Namespace" then { o with name := targetNamespace } else o
  if isResourceNamespaced o.kind then { o with ns := targetNamespace } else o

/-- `fixTargetNamespace`: rename every Namespace object to the target
namespace, force every namespaced object into the target namespace, and
append a synthetic Namespace object when the manifest has none. -/
def fixTargetNamespace (objs : List UObj) (targetNamespace : String) : List UObj :=
  let fixed := objs.map (fixObjNamespace targetNamespace)
  if objs.any (fun o => o.kind == "Namespace") then fixed
  else fixed ++ [⟨"", "", "Namespace", "", targetNamespace, []⟩]

/-- `getLabels`: the two clusterctl labels stamped on every bundle
object. -/
def bundleLabels (providerName : String) : List (String × String) :=
  [(clusterctlLabelName, ""), (clusterctlProviderLabelName, providerName)]

/-- The per-object body of the `addLabels` loop: merge the clusterctl
labels into the object's label map (overwriting those two keys). -/
def addObjLabels (providerName : String) (o : UObj) : UObj :=
  { o with labels :=
      o.labels.filter (fun kv => !((bundleLabels providerName).any (fun b => b.1 == kv.1)))
        ++ bundleLabels providerName }

/-- `addLabels`: merge the clusterctl labels into each object's label
map. -/
def addLabels (objs : List UObj) (providerName : String) : List UObj :=
  objs.map (addObjLabels providerName)

/-- A built components bundle: its target namespace, watching namespace
and object list. -/
structure ComponentsModel where
  targetNamespace : String
  watchingNamespace : String
  objs : List UObj
deriving DecidableEq, Repr

/-- `newComponents` from the parsed object list onward (the yaml
rendering, variable substitution and parsing happen before this point
and are out of scope): detect the default target namespace, default the
target namespace and reject an empty result, force namespaces, and stamp
the clusterctl labels.  `inspectWatchNamespace`/`fixWatchNamespace` only
read and rewrite the `--namespace=` container argument of Deployments,
which is invisible at this abstraction (they never touch kind, name,
namespace or labels), so they are omitted. -/
def newComponents (objs : List UObj) (targetNamespace watchingNamespace providerName : String) :
    Except String ComponentsModel := do
  let defaultTargetNamespace ← inspectTargetNamespace objs
  let tns := if targetNamespace == "" then defaultTargetNamespace else targetNamespace
  if tns == "" then
    .error "target namespace can not be defaulted"
  else
    let objs := fixTargetNamespace objs tns
    let objs := addLabels objs providerName
    .ok ⟨tns, watchingNamespace, objs⟩

/-- Outcome of the namespace lookup at the head of
`objectsClient.EnsureNamespace`. -/
inductive GetOutcome
  | ok
  | notFound
  | forbidden
  | otherErr
deriving DecidableEq, Repr

/-- The environment one `EnsureNamespace` call runs against: the
namespaces of the target store and the failure modes of the two store
operations (`raceAdd` models a concurrent creation of the namespace
between the lookup and the create, which surfaces as `AlreadyExists`). -/
structure NsEnv where
  namespaces : List String
  lookupDenied : Bool
  lookupBroken : Bool
  createBroken : Bool
  raceAdd : Bool
deriving DecidableEq, Repr

/-- The namespace `Get` of `EnsureNamespace` under the environment. -/
def nsGet (e : NsEnv) (ns : String) : GetOutcome :=
  if e.lookupBroken then .otherErr
  else if e.lookupDenied then .forbidden
  else if e.namespaces.contains ns then .ok
  else .notFound

/-- `objectsClient.EnsureNamespace`: succeed when the lookup succeeds;
on `Forbidden` fall back to listing all namespaces and matching by name;
any remaining non-`NotFound` lookup error is returned; on `NotFound`
create the namespace, tolerating `AlreadyExists`.  Returns the resulting
namespace list or the error. -/
def ensureNamespace (e : NsEnv) (ns : String) : Except String (List String) :=
  let g := nsGet e ns
  if g == .ok then .ok e.namespaces
  else if g == .forbidden && e.namespaces.contains ns then .ok e.namespaces
  else if g != .notFound then .error "namespace lookup failed"
  else
    let effective := if e.raceAdd then e.namespaces ++ [ns] else e.namespaces
    if e.createBroken then .error "namespace create failed"
    else if effective.contains ns then .ok effective
    else .ok (effective ++ [ns])

/-! ## Helper lemmas -/

theorem pivot_scan_foldl_false (n : String) (l : List Provider) :
    l.foldl (fun acc pnext => if n == pnext.name then false else acc) false = false := by
  induction l with
  | nil => rfl
  | cons p rest ih =>
    simp only [List.foldl_cons]
    split
    · exact ih
    · exact ih

theorem ensureMetadataLoop_fresh (objs : List String) :
    ∀ store : List String, objs.Nodup → (∀ o ∈ objs, o ∉ store) →
      ensureMetadataLoop store objs = ⟨store ++ objs, false, none⟩ := by
  induction objs with
  | nil => intro store _ _; simp [ensureMetadataLoop]
  | cons o rest ih =>
    intro store hnd habs
    have ho : o ∉ store := habs o (List.mem_cons_self o rest)
    have hco : store.contains o = false := by
      simpa [List.contains_eq_any_beq, List.any_eq_false] using ho
    rw [List.nodup_cons] at hnd
    have habs2 : ∀ x ∈ rest, x ∉ store ++ [o] := by
      intro x hx
      simp only [List.mem_append, List.mem_singleton]
      rintro (h | rfl)
      · exact habs x (List.mem_cons_of_mem o hx) h
      · exact hnd.1 hx
    simp only [ensureMetadataLoop, hco, Bool.false_eq_true, if_false]
    rw [ih (store ++ [o]) hnd.2 habs2]
    simp

theorem listProviders_name_filter (n : String) (hn : n ≠ "") (records : List Provider) :
    listProviders ⟨"", n, ""⟩ records = records.filter (fun p => p.name == n) := by
  unfold listProviders
  congr 1
  funext p
  simp [providerMatches, beq_eq_false_iff_ne, hn]

/-! ## C2: final deletion phase of Pivot (forceDeleteCRD flags) -/

/-- C2: in the final deletion phase of `moverService.Pivot` the inner
scan over `providers[i:]` starts at the provider itself, which always
shares its own name, so `forceDeleteCRD` is `false` for every provider —
in particular a provider whose name appears nowhere later in the list
(here: a single-element list) is still deleted with
`forceDeleteCRD=false`, contradicting the claim that the last provider
of a name is deleted with its CRDs. -/
theorem pivot_delete_always_keeps_crds :
    (∀ providers : List Provider,
      pivotDeleteCalls providers = providers.map (fun p => (p, false, false))) ∧
    pivotDeleteCalls [⟨"capa-system", "aws", "InfrastructureProvider", "v0.5.0", ""⟩] =
      [(⟨"capa-system", "aws", "InfrastructureProvider", "v0.5.0", ""⟩, false, false)] := by
  have key : ∀ providers : List Provider,
      pivotDeleteCalls providers = providers.map (fun p => (p, false, false)) := by
    intro providers
    induction providers with
    | nil => rfl
    | cons p rest ih =>
      simp only [pivotDeleteCalls, List.map_cons, List.foldl_cons, BEq.refl, if_true]
      rw [pivot_scan_foldl_false, ih]
  exact ⟨key, key _⟩

/-! ## C4: EnsureMetadata called twice -/

/-- C4: starting from a store holding none of the registry's schema
objects, the first `EnsureMetadata` call installs them all and returns
`(false, nil)`, and a second call on the resulting store returns
`(true, nil)` without changing the store.  (The schema objects are the
parsed `manifest/clusterctl-api.yaml`, a non-empty list of distinct
objects.) -/
theorem ensureMetadata_twice (schemaObjs store : List String)
    (hne : schemaObjs ≠ []) (hnd : schemaObjs.Nodup)
    (habs : ∀ o ∈ schemaObjs, o ∉ store) :
    ensureMetadata schemaObjs store = ⟨store ++ schemaObjs, false, none⟩ ∧
    ensureMetadata schemaObjs (store ++ schemaObjs) = ⟨store ++ schemaObjs, true, none⟩ := by
  refine ⟨ensureMetadataLoop_fresh schemaObjs store hnd habs, ?_⟩
  match schemaObjs, hne with
  | o :: rest, _ =>
    have ho : (store ++ o :: rest).contains o = true := by
      simp [List.contains_eq_any_beq, List.any_eq_true]
    simp [ensureMetadata, ensureMetadataLoop, ho]

/-- Witness for C4 at a concrete two-object manifest and empty store. -/
theorem ensureMetadata_twice_witness :
    (["crd-clusterctl", "ns-clusterctl"] ≠ ([] : List String)) ∧
    (["crd-clusterctl", "ns-clusterctl"] : List String).Nodup ∧
    (∀ o ∈ (["crd-clusterctl", "ns-clusterctl"] : List String), o ∉ ([] : List String)) ∧
    (ensureMetadata ["crd-clusterctl", "ns-clusterctl"] [] =
      ⟨[] ++ ["crd-clusterctl", "ns-clusterctl"], false, none⟩ ∧
     ensureMetadata ["crd-clusterctl", "ns-clusterctl"] ([] ++ ["crd-clusterctl", "ns-clusterctl"]) =
      ⟨[] ++ ["crd-clusterctl", "ns-clusterctl"], true, none⟩) :=
  ⟨by decide, by decide, by decide,
   ensureMetadata_twice _ _ (by decide) (by decide) (by decide)⟩

/-! ## C1: Validate rejection characterization -/

/-- C1 (amended): for a candidate with a non-empty name, `Validate`
rejects it iff some existing record shares its name and the candidate
clashes on namespace, or no same-name record has its version, or its
watched namespace is empty, or some same-name record has an empty or
equal watched namespace; with no same-name record it is accepted.  (For
an empty candidate name the metadata lookup matches every record, see
the counterexample.) -/
theorem validate_rejection_characterization (m : Provider) (records : List Provider)
    (hname : m.name ≠ "") :
    (validate m records).isSome = true ↔
      (∃ r ∈ records, r.name = m.name) ∧
      ((∃ r ∈ records, r.name = m.name ∧ r.ns = m.ns) ∨
       (∀ r ∈ records, r.name = m.name → r.version ≠ m.version) ∨
       m.watchedNamespace = "" ∨
       (∃ r ∈ records, r.name = m.name ∧
          (r.watchedNamespace = "" ∨ r.watchedNamespace = m.watchedNamespace))) := by
  have hval : validate m records =
      (if (records.filter (fun p => p.name == m.name)).isEmpty then none
       else if (records.filter (fun p => p.name == m.name)).any (fun i => i.ns == m.ns) then
         some .sameNamespaceConflict
       else if !((records.filter (fun p => p.name == m.name)).any (fun i => i.version == m.version)) then
         some .versionConflict
       else if m.watchedNamespace == "" then some .watchAllConflict
       else if (records.filter (fun p => p.name == m.name)).any
           (fun i => i.watchedNamespace == "" || m.watchedNamespace == i.watchedNamespace) then
         some .watchedNamespaceConflict
       else none) := by
    unfold validate
    rw [listProviders_name_filter m.name hname records]
  have eEmpty : (records.filter (fun p => p.name == m.name)).isEmpty = true ↔
      ¬∃ r ∈ records, r.name = m.name := by
    simp [List.isEmpty_iff, List.filter_eq_nil_iff]
  have eNs : ((records.filter (fun p => p.name == m.name)).any (fun i => i.ns == m.ns)) = true ↔
      ∃ r ∈ records, r.name = m.name ∧ r.ns = m.ns := by
    simp [List.any_eq_true, List.mem_filter, and_assoc]
  have eVer : ((records.filter (fun p => p.name == m.name)).any (fun i => i.version == m.version)) = false ↔
      ∀ r ∈ records, r.name = m.name → r.version ≠ m.version := by
    simp [List.any_eq_false, List.mem_filter]
  have eVer2 : ((records.filter (fun p => p.name == m.name)).any (fun i => i.version == m.version)) = true ↔
      ∃ r ∈ records, r.name = m.name ∧ r.version = m.version := by
    simp [List.any_eq_true, List.mem_filter, and_assoc]
  have eW : (m.watchedNamespace == "") = true ↔ m.watchedNamespace = "" := beq_iff_eq
  have eWatch : ((records.filter (fun p => p.name == m.name)).any
      (fun i => i.watchedNamespace == "" || m.watchedNamespace == i.watchedNamespace)) = true ↔
      ∃ r ∈ records, r.name = m.name ∧
        (r.watchedNamespace = "" ∨ r.watchedNamespace = m.watchedNamespace) := by
    rw [List.any_eq_true]
    constructor
    · rintro ⟨x, hx, hcond⟩
      rw [List.mem_filter] at hx
      refine ⟨x, hx.1, by simpa using hx.2, ?_⟩
      simp only [Bool.or_eq_true, beq_iff_eq] at hcond
      rcases hcond with h | h
      · exact Or.inl h
      · exact Or.inr h.symm
    · rintro ⟨r, hr, hrn, hcond⟩
      refine ⟨r, ?_, ?_⟩
      · rw [List.mem_filter]
        exact ⟨hr, by simpa using hrn⟩
      · simp only [Bool.or_eq_true, beq_iff_eq]
        rcases hcond with h | h
        · exact Or.inl h
        · exact Or.inr h.symm
  rw [hval]
  split_ifs with h1 h2 h3 h4 h5
  · rw [eEmpty] at h1
    simp only [Option.isSome_none, Bool.false_eq_true, false_iff]
    exact fun hc => h1 hc.1
  · rw [eEmpty, not_not] at h1
    rw [eNs] at h2
    simp only [Option.isSome_some, true_iff]
    exact ⟨h1, Or.inl h2⟩
  · rw [eEmpty, not_not] at h1
    rw [Bool.not_eq_true', eVer] at h3
    simp only [Option.isSome_some, true_iff]
    exact ⟨h1, Or.inr (Or.inl h3)⟩
  · rw [eEmpty, not_not] at h1
    rw [eW] at h4
    simp only [Option.isSome_some, true_iff]
    exact ⟨h1, Or.inr (Or.inr (Or.inl h4))⟩
  · rw [eEmpty, not_not] at h1
    rw [eWatch] at h5
    simp only [Option.isSome_some, true_iff]
    exact ⟨h1, Or.inr (Or.inr (Or.inr h5))⟩
  · rw [eEmpty, not_not] at h1
    rw [eNs] at h2
    rw [Bool.not_eq_true', Bool.not_eq_false, eVer2] at h3
    rw [eW] at h4
    rw [eWatch] at h5
    simp only [Option.isSome_none, Bool.false_eq_true, false_iff]
    rintro ⟨hex, hA | hB | hC | hD⟩
    · exact h2 hA
    · obtain ⟨r, hr, hrn, hrv⟩ := h3
      exact hB r hr hrn hrv
    · exact h4 hC
    · exact h5 hD

/-- Witness for C1: a second instance of "aws" watching all namespaces is
rejected. -/
theorem validate_rejection_characterization_witness :
    ((⟨"ns1", "aws", "InfrastructureProvider", "v0.5.0", ""⟩ : Provider).name ≠ "") ∧
    ((validate ⟨"ns1", "aws", "InfrastructureProvider", "v0.5.0", ""⟩
        [⟨"ns2", "aws", "InfrastructureProvider", "v0.5.0", "w1"⟩]).isSome = true ↔
      (∃ r ∈ [(⟨"ns2", "aws", "InfrastructureProvider", "v0.5.0", "w1"⟩ : Provider)],
        r.name = (⟨"ns1", "aws", "InfrastructureProvider", "v0.5.0", ""⟩ : Provider).name) ∧
      ((∃ r ∈ [(⟨"ns2", "aws", "InfrastructureProvider", "v0.5.0", "w1"⟩ : Provider)],
          r.name = (⟨"ns1", "aws", "InfrastructureProvider", "v0.5.0", ""⟩ : Provider).name ∧
          r.ns = (⟨"ns1", "aws", "InfrastructureProvider", "v0.5.0", ""⟩ : Provider).ns) ∨
       (∀ r ∈ [(⟨"ns2", "aws", "InfrastructureProvider", "v0.5.0", "w1"⟩ : Provider)],
          r.name = (⟨"ns1", "aws", "InfrastructureProvider", "v0.5.0", ""⟩ : Provider).name →
          r.version ≠ (⟨"ns1", "aws", "InfrastructureProvider", "v0.5.0", ""⟩ : Provider).version) ∨
       (⟨"ns1", "aws", "InfrastructureProvider", "v0.5.0", ""⟩ : Provider).watchedNamespace = "" ∨
       (∃ r ∈ [(⟨"ns2", "aws", "InfrastructureProvider", "v0.5.0", "w1"⟩ : Provider)],
          r.name = (⟨"ns1", "aws", "InfrastructureProvider", "v0.5.0", ""⟩ : Provider).name ∧
          (r.watchedNamespace = "" ∨
           r.watchedNamespace =
             (⟨"ns1", "aws", "InfrastructureProvider", "v0.5.0", ""⟩ : Provider).watchedNamespace)))) :=
  ⟨by decide, validate_rejection_characterization _ _ (by decide)⟩

/-- C1 counterexample to the claim as stated: a candidate with an empty
name; no existing record shares its name, yet `Validate` rejects it,
because the empty name makes the lookup filter match every record. -/
theorem validate_empty_name_counterexample :
    (validate ⟨"nsA", "", "BootstrapProvider", "v1.0.0", "wsA"⟩
      [⟨"nsB", "other", "BootstrapProvider", "v2.0.0", "wsB"⟩]).isSome = true ∧
    ¬∃ r ∈ [(⟨"nsB", "other", "BootstrapProvider", "v2.0.0", "wsB"⟩ : Provider)],
      r.name = (⟨"nsA", "", "BootstrapProvider", "v1.0.0", "wsA"⟩ : Provider).name := by
  decide

/-! ## C6: the GetDefault* helpers -/

theorem dedup_eq_singleton_str (l : List String) (v : String) :
    l.dedup = [v] ↔ l ≠ [] ∧ ∀ x ∈ l, x = v := by
  induction l with
  | nil => simp
  | cons a l ih =>
    by_cases hmem : a ∈ l
    · rw [List.dedup_cons_of_mem hmem, ih]
      constructor
      · rintro ⟨hne, hall⟩
        refine ⟨by simp, ?_⟩
        intro x hx
        rcases List.mem_cons.mp hx with rfl | hx
        · exact hall _ hmem
        · exact hall x hx
      · rintro ⟨_, hall⟩
        have hlnil : l ≠ [] := by
          intro h
          rw [h] at hmem
          exact List.not_mem_nil a hmem
        exact ⟨hlnil, fun x hx => hall x (List.mem_cons_of_mem a hx)⟩
    · rw [List.dedup_cons_of_not_mem hmem]
      constructor
      · intro h
        simp only [List.cons.injEq] at h
        obtain ⟨rfl, hd⟩ := h
        rw [List.dedup_eq_nil] at hd
        subst hd
        exact ⟨by simp, by simp⟩
      · rintro ⟨_, hall⟩
        have ha : a = v := hall a (by simp)
        have hl : l = [] := by
          rcases l with _ | ⟨b, t⟩
          · rfl
          · exfalso
            have hb : b = v := hall b (by simp)
            exact hmem (by rw [ha, ← hb]; simp)
        subst hl
        simp [ha]

theorem uniqueStr_eq_of_ne (l : List String) (v : String) (hv : v ≠ "") :
    uniqueStr l = v ↔ l ≠ [] ∧ ∀ x ∈ l, x = v := by
  unfold uniqueStr
  rcases h : l.dedup with _ | ⟨x, _ | ⟨y, t⟩⟩
  · rw [List.dedup_eq_nil] at h
    subst h
    simp only [ne_eq, not_true_eq_false, false_and, iff_false]
    exact fun he => hv he.symm
  · constructor
    · rintro rfl
      exact (dedup_eq_singleton_str l x).mp h
    · intro hr
      have h2 := (dedup_eq_singleton_str l v).mpr hr
      rw [h] at h2
      simpa using h2
  · constructor
    · intro he
      exact absurd he.symm hv
    · intro hr
      have h2 := (dedup_eq_singleton_str l v).mpr hr
      rw [h] at h2
      simp at h2

theorem uniqueStr_map_filter (f : Provider → String) (q : Provider → Bool)
    (records : List Provider) (v : String) (hv : v ≠ "") :
    uniqueStr ((records.filter q).map f) = v ↔
      (∃ r ∈ records, q r = true) ∧ (∀ r ∈ records, q r = true → f r = v) := by
  rw [uniqueStr_eq_of_ne _ v hv]
  have h1 : ((records.filter q).map f ≠ []) ↔ ∃ r ∈ records, q r = true := by
    simp [List.map_eq_nil_iff, List.filter_eq_nil_iff]
  have h2 : (∀ x ∈ (records.filter q).map f, x = v) ↔
      (∀ r ∈ records, q r = true → f r = v) := by
    rw [List.forall_mem_map]
    simp [List.mem_filter, and_imp]
  rw [h1, h2]

theorem providerMatches_type_only (t : String) (p : Provider) :
    providerMatches ⟨"", "", t⟩ p = true ↔ (t = "" ∨ p.ptype = t) := by
  simp [providerMatches]

theorem providerMatches_name_only (n : String) (p : Provider) :
    providerMatches ⟨"", n, ""⟩ p = true ↔ (n = "" ∨ p.name = n) := by
  simp [providerMatches]

/-- C6 (amended): each defaulting helper returns a non-empty value `v`
iff at least one installed record matches the query (an empty query
matching every record) and all the matching records agree on the queried
field with common value `v`; with no matching record, or matching
records that disagree, it returns the empty string (and no error). -/
theorem getDefault_unique_value_characterization
    (ptype pname v : String) (records : List Provider) (hv : v ≠ "") :
    (getDefaultProvider ptype records = v ↔
      (∃ r ∈ records, (ptype = "" ∨ r.ptype = ptype)) ∧
      (∀ r ∈ records, (ptype = "" ∨ r.ptype = ptype) → r.name = v)) ∧
    (getDefaultVersion pname records = v ↔
      (∃ r ∈ records, (pname = "" ∨ r.name = pname)) ∧
      (∀ r ∈ records, (pname = "" ∨ r.name = pname) → r.version = v)) ∧
    (getDefaultNamespace pname records = v ↔
      (∃ r ∈ records, (pname = "" ∨ r.name = pname)) ∧
      (∀ r ∈ records, (pname = "" ∨ r.name = pname) → r.ns = v)) := by
  refine ⟨?_, ?_, ?_⟩
  · unfold getDefaultProvider listProviders
    rw [uniqueStr_map_filter _ _ _ _ hv]
    simp only [providerMatches_type_only]
  · unfold getDefaultVersion listProviders
    rw [uniqueStr_map_filter _ _ _ _ hv]
    simp only [providerMatches_name_only]
  · unfold getDefaultNamespace listProviders
    rw [uniqueStr_map_filter _ _ _ _ hv]
    simp only [providerMatches_name_only]

/-- Witness for C6 at a single installed core provider. -/
theorem getDefault_unique_value_characterization_witness :
    ("cluster-api" ≠ "") ∧
    ((getDefaultProvider "CoreProvider"
        [⟨"capi-system", "cluster-api", "CoreProvider", "v0.3.0", "ns1"⟩] = "cluster-api" ↔
      (∃ r ∈ [(⟨"capi-system", "cluster-api", "CoreProvider", "v0.3.0", "ns1"⟩ : Provider)],
        ("CoreProvider" = "" ∨ r.ptype = "CoreProvider")) ∧
      (∀ r ∈ [(⟨"capi-system", "cluster-api", "CoreProvider", "v0.3.0", "ns1"⟩ : Provider)],
        ("CoreProvider" = "" ∨ r.ptype = "CoreProvider") → r.name = "cluster-api")) ∧
    (getDefaultVersion "cluster-api"
        [⟨"capi-system", "cluster-api", "CoreProvider", "v0.3.0", "ns1"⟩] = "cluster-api" ↔
      (∃ r ∈ [(⟨"capi-system", "cluster-api", "CoreProvider", "v0.3.0", "ns1"⟩ : Provider)],
        ("cluster-api" = "" ∨ r.name = "cluster-api")) ∧
      (∀ r ∈ [(⟨"capi-system", "cluster-api", "CoreProvider", "v0.3.0", "ns1"⟩ : Provider)],
        ("cluster-api" = "" ∨ r.name = "cluster-api") → r.version = "cluster-api")) ∧
    (getDefaultNamespace "cluster-api"
        [⟨"capi-system", "cluster-api", "CoreProvider", "v0.3.0", "ns1"⟩] = "cluster-api" ↔
      (∃ r ∈ [(⟨"capi-system", "cluster-api", "CoreProvider", "v0.3.0", "ns1"⟩ : Provider)],
        ("cluster-api" = "" ∨ r.name = "cluster-api")) ∧
      (∀ r ∈ [(⟨"capi-system", "cluster-api", "CoreProvider", "v0.3.0", "ns1"⟩ : Provider)],
        ("cluster-api" = "" ∨ r.name = "cluster-api") → r.ns = "cluster-api"))) :=
  ⟨by decide,
   getDefault_unique_value_characterization "CoreProvider" "cluster-api" "cluster-api"
     [⟨"capi-system", "cluster-api", "CoreProvider", "v0.3.0", "ns1"⟩] (by decide)⟩

/-- C6 counterexample to the claim as stated: two distinct installed
records (same provider in two namespaces) match the queried type, yet
`GetDefaultProvider` returns their shared non-empty name instead of the
empty string. -/
theorem getDefault_two_records_counterexample :
    getDefaultProvider "InfrastructureProvider"
      [⟨"ns1", "aws", "InfrastructureProvider", "v0.5.0", "w1"⟩,
       ⟨"ns2", "aws", "InfrastructureProvider", "v0.5.0", "w2"⟩] = "aws" ∧
    (listProviders ⟨"", "", "InfrastructureProvider"⟩
      [⟨"ns1", "aws", "InfrastructureProvider", "v0.5.0", "w1"⟩,
       ⟨"ns2", "aws", "InfrastructureProvider", "v0.5.0", "w2"⟩]).length = 2 := by
  decide

/-! ## C7: EnsureNamespace -/

theorem contains_eq_true_of_mem {l : List String} {a : String} (h : a ∈ l) :
    l.contains a = true :=
  List.elem_iff.mpr h

theorem contains_eq_false_of_not_mem {l : List String} {a : String} (h : a ∉ l) :
    l.contains a = false := by
  cases hc : l.contains a
  · rfl
  · exact absurd (List.elem_iff.mp hc) h

/-- C7: `EnsureNamespace` fails exactly when the lookup breaks with an
error other than NotFound (a Forbidden lookup counting as failure only
when the namespace is absent from the full namespace list) or the create
breaks with an error other than AlreadyExists; every successful call
leaves the target store containing the namespace, and a NotFound lookup
with a working create adds it. -/
theorem ensureNamespace_outcome_characterization (e : NsEnv) (ns : String) :
    ((∃ msg, ensureNamespace e ns = .error msg) ↔
      (e.lookupBroken = true ∨
       (e.lookupBroken = false ∧ e.lookupDenied = true ∧ ns ∉ e.namespaces) ∨
       (e.lookupBroken = false ∧ e.lookupDenied = false ∧ ns ∉ e.namespaces ∧
        e.createBroken = true))) ∧
    (∀ out, ensureNamespace e ns = .ok out → ns ∈ out) ∧
    (e.lookupBroken = false → e.lookupDenied = false → ns ∉ e.namespaces →
      e.createBroken = false → e.raceAdd = false →
      ensureNamespace e ns = .ok (e.namespaces ++ [ns])) := by
  rcases e with ⟨nss, ld, lb, cb, ra⟩
  by_cases hm : ns ∈ nss
  · have hc : nss.contains ns = true := contains_eq_true_of_mem hm
    cases ld <;> cases lb <;> cases cb <;> cases ra <;>
      simp_all [ensureNamespace, nsGet, hc]
  · have hc : nss.contains ns = false := contains_eq_false_of_not_mem hm
    have hc2 : (nss ++ [ns]).contains ns = true :=
      contains_eq_true_of_mem (by simp)
    cases ld <;> cases lb <;> cases cb <;> cases ra <;>
      simp_all [ensureNamespace, nsGet, hc, hc2]

/-- Witness for C7: a NotFound lookup followed by a successful create. -/
theorem ensureNamespace_outcome_characterization_witness :
    ((∃ msg, ensureNamespace ⟨["default"], false, false, false, false⟩ "capi-system" = .error msg) ↔
      (false = true ∨
       (false = false ∧ false = true ∧ "capi-system" ∉ ["default"]) ∨
       (false = false ∧ false = false ∧ "capi-system" ∉ ["default"] ∧ false = true))) ∧
    (∀ out, ensureNamespace ⟨["default"], false, false, false, false⟩ "capi-system" = .ok out →
      "capi-system" ∈ out) ∧
    (false = false → false = false → "capi-system" ∉ ["default"] → false = false →
      false = false →
      ensureNamespace ⟨["default"], false, false, false, false⟩ "capi-system" =
        .ok (["default"] ++ ["capi-system"])) :=
  ensureNamespace_outcome_characterization ⟨["default"], false, false, false, false⟩ "capi-system"

/-! ## Sorting lemmas shared by the reconciler claims -/

theorem sameObj_refl (o : UObj) : sameObj o o = true := by
  simp [sameObj]

theorem sameObj_iff {a b : UObj} : sameObj a b = true ↔ identKey a = identKey b := by
  simp [sameObj]

theorem sameObj_kind_eq {a b : UObj} (h : sameObj a b = true) : a.kind = b.kind := by
  rw [sameObj_iff] at h
  simp only [identKey, Prod.mk.injEq] at h
  exact h.2.2.1

theorem foldl_append_filter_eq (ps : List String) (rs : List UObj) :
    ∀ init : List UObj,
      ps.foldl (fun ret p => ret ++ rs.filter (fun o => o.kind == p)) init =
        init ++ (ps.map (fun p => rs.filter (fun o => o.kind == p))).flatten := by
  induction ps with
  | nil => intro init; simp
  | cons p ps ih =>
    intro init
    simp only [List.foldl_cons, List.map_cons, List.flatten_cons]
    rw [ih, List.append_assoc]

theorem sortResourcesForCreate_eq (rs : List UObj) :
    sortResourcesForCreate rs = sortPhase2 (prioritizedPart rs) rs := by
  unfold sortResourcesForCreate prioritizedPart
  rw [foldl_append_filter_eq]
  simp

theorem mem_prioritizedPart_kind {rs : List UObj} {r : UObj} (h : r ∈ prioritizedPart rs) :
    r ∈ rs ∧ r.kind ∈ defaultCreatePriorities := by
  unfold prioritizedPart at h
  rw [List.mem_flatten] at h
  obtain ⟨l, hl, hrl⟩ := h
  rw [List.mem_map] at hl
  obtain ⟨p, hp, rfl⟩ := hl
  rw [List.mem_filter] at hrl
  refine ⟨hrl.1, ?_⟩
  rw [beq_iff_eq] at hrl
  exact hrl.2 ▸ hp

theorem self_mem_prioritizedPart {rs : List UObj} {o : UObj} (ho : o ∈ rs)
    (hk : o.kind ∈ defaultCreatePriorities) : o ∈ prioritizedPart rs := by
  unfold prioritizedPart
  rw [List.mem_flatten]
  exact ⟨rs.filter (fun x => x.kind == o.kind),
    List.mem_map.mpr ⟨o.kind, hk, rfl⟩,
    List.mem_filter.mpr ⟨ho, beq_self_eq_true _⟩⟩

theorem sortPhase2_structure :
    ∀ (rs ret : List UObj),
      (∀ o ∈ rs, o.kind ∈ defaultCreatePriorities → ∃ r ∈ ret, sameObj r o = true) →
      ∃ rest, sortPhase2 ret rs = ret ++ rest ∧ rest.Sublist rs ∧
        (∀ o ∈ rest, o.kind ∉ defaultCreatePriorities) ∧
        (∀ o ∈ rs, ∃ r ∈ ret ++ rest, sameObj r o = true) := by
  intro rs
  induction rs with
  | nil =>
    intro ret _
    exact ⟨[], by simp [sortPhase2], List.nil_sublist _, by simp, by simp⟩
  | cons o tl ih =>
    intro ret hret
    by_cases hfound : ret.any (fun r => sameObj r o) = true
    · obtain ⟨rest, heq, hsub, hkind, hcov⟩ :=
        ih ret (fun x hx => hret x (List.mem_cons_of_mem o hx))
      obtain ⟨r0, hr0, hs0⟩ := List.any_eq_true.mp hfound
      refine ⟨rest, ?_, hsub.cons o, hkind, ?_⟩
      · simp only [sortPhase2, hfound, if_true]
        exact heq
      · intro x hx
        rcases List.mem_cons.mp hx with rfl | hx2
        · exact ⟨r0, List.mem_append.mpr (Or.inl hr0), hs0⟩
        · exact hcov x hx2
    · have hknp : o.kind ∉ defaultCreatePriorities := by
        intro hk
        obtain ⟨r, hr, hsame⟩ := hret o (List.mem_cons_self o tl) hk
        exact hfound (List.any_eq_true.mpr ⟨r, hr, hsame⟩)
      obtain ⟨rest, heq, hsub, hkind, hcov⟩ := ih (ret ++ [o]) (fun x hx hk => by
        obtain ⟨r, hr, hsame⟩ := hret x (List.mem_cons_of_mem o hx) hk
        exact ⟨r, List.mem_append.mpr (Or.inl hr), hsame⟩)
      refine ⟨o :: rest, ?_, hsub.cons₂ o, ?_, ?_⟩
      · simp only [sortPhase2, hfound, if_false]
        rw [heq]
        simp
      · intro x hx
        rcases List.mem_cons.mp hx with rfl | hx2
        · exact hknp
        · exact hkind x hx2
      · intro x hx
        rcases List.mem_cons.mp hx with rfl | hx2
        · exact ⟨x, List.mem_append.mpr (Or.inr (List.mem_cons_self x rest)),
            sameObj_refl x⟩
        · obtain ⟨r, hr, hs⟩ := hcov x hx2
          rw [List.append_assoc] at hr
          exact ⟨r, hr, hs⟩

theorem sortResources_structure (rs : List UObj) :
    ∃ rest, sortResourcesForCreate rs = prioritizedPart rs ++ rest ∧ rest.Sublist rs ∧
      (∀ o ∈ rest, o.kind ∉ defaultCreatePriorities) ∧
      (∀ o ∈ rs, o.kind ∉ defaultCreatePriorities → ∃ r ∈ rest, sameObj r o = true) := by
  rw [sortResourcesForCreate_eq]
  obtain ⟨rest, heq, hsub, hkind, hcov⟩ := sortPhase2_structure rs (prioritizedPart rs)
    (fun o ho hk => ⟨o, self_mem_prioritizedPart ho hk, sameObj_refl o⟩)
  refine ⟨rest, heq, hsub, hkind, ?_⟩
  intro o ho hko
  obtain ⟨r, hr, hs⟩ := hcov o ho
  rcases List.mem_append.mp hr with hrp | hrr
  · exfalso
    have hkr := (mem_prioritizedPart_kind hrp).2
    rw [sameObj_kind_eq hs] at hkr
    exact hko hkr
  · exact ⟨r, hrr, hs⟩

theorem indexOf_append_of_mem {a : UObj} :
    ∀ (l₁ l₂ : List UObj), a ∈ l₁ → List.indexOf a (l₁ ++ l₂) = List.indexOf a l₁ := by
  intro l₁
  induction l₁ with
  | nil => intro l₂ h; exact absurd h (List.not_mem_nil a)
  | cons x xs ih =>
    intro l₂ h
    rw [List.cons_append, List.indexOf_cons, List.indexOf_cons]
    cases hx : x == a with
    | true => simp
    | false =>
      simp only [Bool.cond_false]
      have hmem : a ∈ xs := by
        rcases List.mem_cons.mp h with rfl | h2
        · simp at hx
        · exact h2
      rw [ih l₂ hmem]

theorem indexOf_append_of_not_mem {a : UObj} :
    ∀ (l₁ l₂ : List UObj), a ∉ l₁ →
      List.indexOf a (l₁ ++ l₂) = l₁.length + List.indexOf a l₂ := by
  intro l₁
  induction l₁ with
  | nil => intro l₂ _; simp
  | cons x xs ih =>
    intro l₂ h
    have hxa : (x == a) = false := by
      rw [beq_eq_false_iff_ne]
      intro hcontra
      exact h (hcontra ▸ List.mem_cons_self x xs)
    rw [List.cons_append, List.indexOf_cons, hxa]
    simp only [Bool.cond_false]
    rw [ih l₂ (fun hmem => h (List.mem_cons_of_mem x hmem))]
    simp only [List.length_cons]
    omega

theorem not_mem_filter_kind {rs : List UObj} {o : UObj} {k : String} (h : o.kind ≠ k) :
    o ∉ rs.filter (fun x => x.kind == k) := by
  intro hmem
  rw [List.mem_filter, beq_iff_eq] at hmem
  exact h hmem.2

theorem prioritizedPart_decomp (rs : List UObj) :
    prioritizedPart rs = rs.filter (fun o => o.kind == "Namespace") ++
      (rs.filter (fun o => o.kind == "CustomResourceDefinition") ++
       (["StorageClass", "PersistentVolume", "PersistentVolumeClaim", "Secret",
         "ConfigMap", "ServiceAccount", "LimitRange", "Pods", "ReplicaSet",
         "Endpoints"].map (fun p => rs.filter (fun o => o.kind == p))).flatten) := by
  unfold prioritizedPart defaultCreatePriorities
  simp only [List.map_cons, List.flatten_cons]

/-! ## C3: reconciler creation ordering -/

theorem createLoop_map_snd (l : List UObj) :
    ∀ store : List UObj, (createLoop store l).map (fun op => op.2) = l := by
  induction l with
  | nil => intro store; rfl
  | cons r tl ih =>
    intro store
    show ((createStep store r).1 :: createLoop (createStep store r).2 tl).map
      (fun op => op.2) = r :: tl
    rw [List.map_cons, ih]
    congr 1
    unfold createStep
    split <;> rfl

/-- C3 counterexample to the claim as stated: a bundle holding two
objects with the same GVK/namespace/name gets a single create-or-update
operation, not one per object — the duplicate is skipped, so not *all*
remaining objects are processed. -/
theorem create_duplicate_object_counterexample :
    createOps [] [⟨"apps", "v1", "Deployment", "ns1", "mgr", []⟩,
                  ⟨"apps", "v1", "Deployment", "ns1", "mgr", []⟩] =
      [(OpKind.create, ⟨"apps", "v1", "Deployment", "ns1", "mgr", []⟩)] ∧
    ([⟨"apps", "v1", "Deployment", "ns1", "mgr", []⟩,
      ⟨"apps", "v1", "Deployment", "ns1", "mgr", []⟩] : List UObj).length = 2 := by
  decide

/-! ## C10: sortResourcesForCreate as a permutation -/

theorem filter_or_perm (p q : UObj → Bool) :
    ∀ l : List UObj, (∀ x ∈ l, ¬(p x = true ∧ q x = true)) →
      (l.filter (fun x => p x || q x)).Perm (l.filter p ++ l.filter q) := by
  intro l
  induction l with
  | nil => intro _; simp
  | cons x l ih =>
    intro hdisj
    have ihl := ih (fun y hy => hdisj y (List.mem_cons_of_mem x hy))
    cases hp : p x
    · cases hq : q x
      · simpa [List.filter_cons, hp, hq] using ihl
      · simp only [List.filter_cons, hp, hq, Bool.false_or, if_true, if_false,
          Bool.false_eq_true]
        exact (ihl.cons x).trans List.perm_middle.symm
    · have hq : q x = false := by
        cases hq : q x
        · rfl
        · exact absurd ⟨hp, hq⟩ (hdisj x (List.mem_cons_self x l))
      simp only [List.filter_cons, hp, hq, Bool.true_or, if_true, if_false,
        Bool.false_eq_true, List.cons_append]
      exact ihl.cons x

theorem flatten_filters_perm :
    ∀ ks : List String, ks.Nodup → ∀ rs : List UObj,
      ((ks.map (fun p => rs.filter (fun o => o.kind == p))).flatten).Perm
        (rs.filter (fun o => ks.contains o.kind)) := by
  intro ks
  induction ks with
  | nil =>
    intro _ rs
    simp only [List.map_nil, List.flatten_nil]
    have : rs.filter (fun o => ([] : List String).contains o.kind) = [] := by
      rw [List.filter_eq_nil_iff]
      intro a _
      simp [List.contains]
    rw [this]
  | cons k ks ih =>
    intro hnd rs
    rw [List.nodup_cons] at hnd
    simp only [List.map_cons, List.flatten_cons]
    have h1 := ih hnd.2 rs
    have hdisj : ∀ x ∈ rs, ¬((x.kind == k) = true ∧ (ks.contains x.kind) = true) := by
      rintro x _ ⟨ha, hb⟩
      rw [beq_iff_eq] at ha
      rw [ha] at hb
      exact hnd.1 (List.elem_iff.mp hb)
    have h2 := filter_or_perm (fun x => x.kind == k) (fun x => ks.contains x.kind) rs hdisj
    have hcongr : rs.filter (fun o => (k :: ks).contains o.kind) =
        rs.filter (fun o => (o.kind == k) || ks.contains o.kind) := by
      apply List.filter_congr
      intro x _
      rw [List.contains_cons]
    rw [hcongr]
    exact (List.Perm.append_left _ h1).trans h2.symm

theorem sortPhase2_of_nodup :
    ∀ (rs ret : List UObj),
      List.Pairwise (fun a b => identKey a ≠ identKey b) rs →
      (∀ o ∈ rs, o.kind ∈ defaultCreatePriorities → ∃ r ∈ ret, sameObj r o = true) →
      (∀ o ∈ rs, o.kind ∉ defaultCreatePriorities → ∀ r ∈ ret, sameObj r o = false) →
      sortPhase2 ret rs =
        ret ++ rs.filter (fun o => !(defaultCreatePriorities.contains o.kind)) := by
  intro rs
  induction rs with
  | nil => intro ret _ _ _; simp [sortPhase2]
  | cons o tl ih =>
    intro ret hpw h1 h2
    rw [List.pairwise_cons] at hpw
    by_cases hk : o.kind ∈ defaultCreatePriorities
    · obtain ⟨r, hr, hs⟩ := h1 o (List.mem_cons_self o tl) hk
      have hfound : ret.any (fun x => sameObj x o) = true :=
        List.any_eq_true.mpr ⟨r, hr, hs⟩
      have hcontains : defaultCreatePriorities.contains o.kind = true :=
        List.elem_iff.mpr hk
      simp only [sortPhase2, hfound, if_true]
      rw [ih ret hpw.2 (fun x hx => h1 x (List.mem_cons_of_mem o hx))
        (fun x hx => h2 x (List.mem_cons_of_mem o hx))]
      simp only [List.filter_cons, hcontains, Bool.not_true, Bool.false_eq_true, if_false]
    · have hnotfound : ret.any (fun x => sameObj x o) = false := by
        rw [List.any_eq_false]
        intro r hr
        rw [h2 o (List.mem_cons_self o tl) hk r hr]
        simp
      have hcontains : defaultCreatePriorities.contains o.kind = false := by
        cases hc : defaultCreatePriorities.contains o.kind
        · rfl
        · exact absurd (List.elem_iff.mp hc) hk
      simp only [sortPhase2, hnotfound, Bool.false_eq_true, if_false]
      rw [ih (ret ++ [o]) hpw.2
        (fun x hx hkx => by
          obtain ⟨r, hr, hs⟩ := h1 x (List.mem_cons_of_mem o hx) hkx
          exact ⟨r, List.mem_append.mpr (Or.inl hr), hs⟩)
        (fun x hx hkx r hr => by
          rcases List.mem_append.mp hr with hr2 | hr2
          · exact h2 x (List.mem_cons_of_mem o hx) hkx r hr2
          · rw [List.mem_singleton] at hr2
            subst hr2
            rw [sameObj]
            rw [beq_eq_false_iff_ne]
            exact hpw.1 x hx)]
      simp only [List.filter_cons, hcontains, Bool.not_false, if_true]
      simp

theorem sort_eq_append_filter_of_nodup (rs : List UObj)
    (hnd : (rs.map identKey).Nodup) :
    sortResourcesForCreate rs = prioritizedPart rs ++
      rs.filter (fun o => !(defaultCreatePriorities.contains o.kind)) := by
  have hpw : List.Pairwise (fun a b => identKey a ≠ identKey b) rs :=
    List.pairwise_map.mp hnd
  have hbase1 : ∀ x ∈ rs, x.kind ∈ defaultCreatePriorities →
      ∃ r ∈ prioritizedPart rs, sameObj r x = true :=
    fun x hx hkx => ⟨x, self_mem_prioritizedPart hx hkx, sameObj_refl x⟩
  have hbase2 : ∀ x ∈ rs, x.kind ∉ defaultCreatePriorities →
      ∀ r ∈ prioritizedPart rs, sameObj r x = false := by
    intro x _ hkx r hr
    cases hs : sameObj r x
    · rfl
    · exfalso
      have hkind := sameObj_kind_eq hs
      have hmem := (mem_prioritizedPart_kind hr).2
      rw [hkind] at hmem
      exact hkx hmem
  rw [sortResourcesForCreate_eq,
    sortPhase2_of_nodup rs (prioritizedPart rs) hpw hbase1 hbase2]

theorem countP_prioritizedPart_zero {rs : List UObj} {o : UObj}
    (hk : o.kind ∉ defaultCreatePriorities) :
    (prioritizedPart rs).countP (fun x => sameObj x o) = 0 := by
  rw [List.countP_eq_zero]
  intro x hx hs
  have hkind := sameObj_kind_eq hs
  have hmem := (mem_prioritizedPart_kind hx).2
  rw [hkind] at hmem
  exact hk hmem

theorem sortPhase2_countP_le_one {o : UObj} :
    ∀ (rs ret : List UObj), ret.countP (fun x => sameObj x o) ≤ 1 →
      (sortPhase2 ret rs).countP (fun x => sameObj x o) ≤ 1 := by
  intro rs
  induction rs with
  | nil => intro ret h; simpa [sortPhase2] using h
  | cons x tl ih =>
    intro ret h
    by_cases hf : ret.any (fun r => sameObj r x) = true
    · simp only [sortPhase2, hf, if_true]
      exact ih ret h
    · simp only [sortPhase2, hf, Bool.false_eq_true, if_false]
      apply ih
      rw [List.countP_append]
      by_cases hxo : sameObj x o = true
      · have hz : ret.countP (fun y => sameObj y o) = 0 := by
          by_contra hnz
          have hpos : 0 < ret.countP (fun y => sameObj y o) := Nat.pos_of_ne_zero hnz
          rw [List.countP_pos_iff] at hpos
          obtain ⟨r, hr, hro⟩ := hpos
          have hrx : sameObj r x = true :=
            sameObj_iff.mpr ((sameObj_iff.mp hro).trans (sameObj_iff.mp hxo).symm)
          exact hf (List.any_eq_true.mpr ⟨r, hr, hrx⟩)
        rw [hz]
        simp [List.countP_cons, hxo]
      · have hone : List.countP (fun y => sameObj y o) [x] = 0 := by
          simp [List.countP_cons, hxo]
        rw [hone]
        omega

/-- C10 (amended): on a bundle whose objects have pairwise distinct
GVK/namespace/name identities, `sortResourcesForCreate` returns a
permutation of its input; and an object of a kind *outside* the priority
list whose identity coincides with an earlier-emitted object is silently
omitted, so at most one object of any such identity is ever emitted.
(Objects of priority kinds are re-emitted once per occurrence by the
priority pass, see the counterexample.) -/
theorem sort_resources_permutation_and_dedup
    (rs rs2 : List UObj) (o : UObj)
    (hnd : (rs.map identKey).Nodup)
    (hk : o.kind ∉ defaultCreatePriorities) :
    (sortResourcesForCreate rs).Perm rs ∧
    (sortResourcesForCreate rs2).countP (fun x => sameObj x o) ≤ 1 := by
  constructor
  · rw [sort_eq_append_filter_of_nodup rs hnd]
    have hperm1 : (prioritizedPart rs).Perm
        (rs.filter (fun x => defaultCreatePriorities.contains x.kind)) :=
      flatten_filters_perm defaultCreatePriorities (by decide) rs
    exact (hperm1.append_right _).trans
      (List.filter_append_perm (fun x => defaultCreatePriorities.contains x.kind) rs)
  · rw [sortResourcesForCreate_eq]
    apply sortPhase2_countP_le_one
    rw [countP_prioritizedPart_zero hk]
    omega

/-- Witness for C10: a distinct-identity bundle and a Deployment-kind
identity. -/
theorem sort_resources_permutation_and_dedup_witness :
    (([⟨"", "v1", "Namespace", "", "capi-system", []⟩,
       ⟨"apps", "v1", "Deployment", "capi-system", "mgr", []⟩] : List UObj).map identKey).Nodup ∧
    ((⟨"apps", "v1", "Deployment", "capi-system", "mgr", []⟩ : UObj).kind ∉
      defaultCreatePriorities) ∧
    ((sortResourcesForCreate
        [⟨"", "v1", "Namespace", "", "capi-system", []⟩,
         ⟨"apps", "v1", "Deployment", "capi-system", "mgr", []⟩]).Perm
      [⟨"", "v1", "Namespace", "", "capi-system", []⟩,
       ⟨"apps", "v1", "Deployment", "capi-system", "mgr", []⟩] ∧
     (sortResourcesForCreate
        [⟨"apps", "v1", "Deployment", "capi-system", "mgr", []⟩,
         ⟨"apps", "v1", "Deployment", "capi-system", "mgr", []⟩]).countP
        (fun x => sameObj x ⟨"apps", "v1", "Deployment", "capi-system", "mgr", []⟩) ≤ 1) :=
  ⟨by decide, by decide,
   sort_resources_permutation_and_dedup _
     [⟨"apps", "v1", "Deployment", "capi-system", "mgr", []⟩,
      ⟨"apps", "v1", "Deployment", "capi-system", "mgr", []⟩]
     _ (by decide) (by decide)⟩

/-- C10 counterexample to the claim as stated: a duplicated Namespace
object coincides with the earlier-emitted copy of itself, yet it is
*not* omitted — the priority pass re-emits every occurrence of a
priority kind. -/
theorem sort_priority_duplicate_counterexample :
    sortResourcesForCreate [⟨"", "v1", "Namespace", "", "capi-system", []⟩,
                            ⟨"", "v1", "Namespace", "", "capi-system", []⟩] =
      [⟨"", "v1", "Namespace", "", "capi-system", []⟩,
       ⟨"", "v1", "Namespace", "", "capi-system", []⟩] ∧
    sameObj ⟨"", "v1", "Namespace", "", "capi-system", []⟩
      ⟨"", "v1", "Namespace", "", "capi-system", []⟩ = true := by
  decide

/-! ## C5: teardown Delete selection -/

theorem contains_false_iff {l : List String} {a : String} :
    l.contains a = false ↔ a ∉ l := by
  constructor
  · intro h hm
    rw [contains_eq_true_of_mem hm] at h
    simp at h
  · exact contains_eq_false_of_not_mem

theorem mem_of_mem_filter {l : List UObj} {p : UObj → Bool} {o : UObj}
    (h : o ∈ l.filter p) : o ∈ l :=
  (List.mem_filter.mp h).1

theorem mem_listResources {ns : String} {req : List (String × String)}
    {store : List UObj} {o : UObj} :
    o ∈ listResources ns req store ↔
      o ∈ store ∧ matchesLabels req o = true ∧
        (ns = "" ∨ isResourceNamespaced o.kind = false ∨ o.ns = ns) := by
  unfold listResources
  rw [List.mem_filter]
  simp only [Bool.and_eq_true, Bool.or_eq_true, beq_iff_eq, Bool.not_eq_true',
    and_assoc, or_assoc]

theorem deleteTargets_keep_eq (p : Provider) (store : List UObj) :
    deleteTargets p false false store =
      ((listResources p.ns [(clusterctlProviderLabelName, p.name)] store).filter
        (fun r => r.kind != "CustomResourceDefinition")).filter
          (fun r => r.kind != "Namespace") := rfl

theorem deleteTargets_crdonly_eq (p : Provider) (store : List UObj) :
    deleteTargets p false true store =
      (listResources p.ns [(clusterctlProviderLabelName, p.name)] store).filter
        (fun r => r.kind != "Namespace") := rfl

theorem deleteTargets_force_eq (p : Provider) (store : List UObj) :
    deleteTargets p true true store =
      (listResources p.ns [(clusterctlProviderLabelName, p.name)] store).filter
        (fun r => !((((listResources p.ns [(clusterctlProviderLabelName, p.name)] store).filter
          (fun x => x.kind == "Namespace")).map (fun x => x.name)).contains r.ns)) := rfl

theorem deleteTargets_nsonly_eq (p : Provider) (store : List UObj) :
    deleteTargets p true false store =
      ((listResources p.ns [(clusterctlProviderLabelName, p.name)] store).filter
        (fun r => r.kind != "CustomResourceDefinition")).filter
        (fun r => !(((((listResources p.ns [(clusterctlProviderLabelName, p.name)] store).filter
          (fun r => r.kind != "CustomResourceDefinition")).filter
            (fun x => x.kind == "Namespace")).map (fun x => x.name)).contains r.ns)) := rfl

/-- C5 (amended): `Delete(provider, false, false)` deletes exactly the
objects labeled with the provider that a namespace-scoped listing in the
provider's namespace returns (cluster-scoped objects, plus — when the
provider namespace is non-empty — the namespaced objects in it) whose
kind is neither Namespace nor CustomResourceDefinition;
`Delete(provider, true, true)` deletes the listed objects, the labeled
Namespace and CRD objects included, except those lying in one of the
listed Namespace objects; objects not labeled with the provider are
never deleted directly under any flag combination. -/
theorem delete_targets_characterization (p : Provider) (store : List UObj) (o : UObj) :
    (o ∈ deleteTargets p false false store ↔
      o ∈ store ∧ matchesLabels [(clusterctlProviderLabelName, p.name)] o = true ∧
        (p.ns = "" ∨ isResourceNamespaced o.kind = false ∨ o.ns = p.ns) ∧
        o.kind ≠ "CustomResourceDefinition" ∧ o.kind ≠ "Namespace") ∧
    (o ∈ deleteTargets p true true store ↔
      o ∈ listResources p.ns [(clusterctlProviderLabelName, p.name)] store ∧
        o.ns ∉ ((listResources p.ns [(clusterctlProviderLabelName, p.name)] store).filter
          (fun x => x.kind == "Namespace")).map (fun x => x.name)) ∧
    (∀ fdNs fdCRD : Bool, o ∈ deleteTargets p fdNs fdCRD store →
      matchesLabels [(clusterctlProviderLabelName, p.name)] o = true) := by
  refine ⟨?_, ?_, ?_⟩
  · rw [deleteTargets_keep_eq, List.mem_filter, List.mem_filter, mem_listResources]
    simp only [bne_iff_ne, ne_eq, and_assoc]
  · rw [deleteTargets_force_eq, List.mem_filter]
    rw [Bool.not_eq_true', contains_false_iff]
  · intro fdNs fdCRD
    cases fdNs <;> cases fdCRD <;> intro h
    · rw [deleteTargets_keep_eq] at h
      exact (mem_listResources.mp (mem_of_mem_filter (mem_of_mem_filter h))).2.1
    · rw [deleteTargets_crdonly_eq] at h
      exact (mem_listResources.mp (mem_of_mem_filter h)).2.1
    · rw [deleteTargets_nsonly_eq] at h
      exact (mem_listResources.mp (mem_of_mem_filter (mem_of_mem_filter h))).2.1
    · rw [deleteTargets_force_eq] at h
      exact (mem_listResources.mp (mem_of_mem_filter h)).2.1

/-- Witness for C5 at a labeled Deployment in the provider namespace. -/
theorem delete_targets_characterization_witness :
    ((⟨"apps", "v1", "Deployment", "capa-system", "capa-controller", [(clusterctlProviderLabelName, "aws")]⟩ : UObj) ∈
      deleteTargets ⟨"capa-system", "aws", "InfrastructureProvider", "v0.5.0", ""⟩ false false
        [⟨"apps", "v1", "Deployment", "capa-system", "capa-controller", [(clusterctlProviderLabelName, "aws")]⟩] ↔
      (⟨"apps", "v1", "Deployment", "capa-system", "capa-controller", [(clusterctlProviderLabelName, "aws")]⟩ : UObj) ∈
        [(⟨"apps", "v1", "Deployment", "capa-system", "capa-controller", [(clusterctlProviderLabelName, "aws")]⟩ : UObj)] ∧
      matchesLabels [(clusterctlProviderLabelName,
          (⟨"capa-system", "aws", "InfrastructureProvider", "v0.5.0", ""⟩ : Provider).name)]
        ⟨"apps", "v1", "Deployment", "capa-system", "capa-controller", [(clusterctlProviderLabelName, "aws")]⟩ = true ∧
      ((⟨"capa-system", "aws", "InfrastructureProvider", "v0.5.0", ""⟩ : Provider).ns = "" ∨
       isResourceNamespaced (⟨"apps", "v1", "Deployment", "capa-system", "capa-controller", [(clusterctlProviderLabelName, "aws")]⟩ : UObj).kind = false ∨
       (⟨"apps", "v1", "Deployment", "capa-system", "capa-controller", [(clusterctlProviderLabelName, "aws")]⟩ : UObj).ns =
         (⟨"capa-system", "aws", "InfrastructureProvider", "v0.5.0", ""⟩ : Provider).ns) ∧
      (⟨"apps", "v1", "Deployment", "capa-system", "capa-controller", [(clusterctlProviderLabelName, "aws")]⟩ : UObj).kind ≠ "CustomResourceDefinition" ∧
      (⟨"apps", "v1", "Deployment", "capa-system", "capa-controller", [(clusterctlProviderLabelName, "aws")]⟩ : UObj).kind ≠ "Namespace") ∧
    ((⟨"apps", "v1", "Deployment", "capa-system", "capa-controller", [(clusterctlProviderLabelName, "aws")]⟩ : UObj) ∈
      deleteTargets ⟨"capa-system", "aws", "InfrastructureProvider", "v0.5.0", ""⟩ true true
        [⟨"apps", "v1", "Deployment", "capa-system", "capa-controller", [(clusterctlProviderLabelName, "aws")]⟩] ↔
      (⟨"apps", "v1", "Deployment", "capa-system", "capa-controller", [(clusterctlProviderLabelName, "aws")]⟩ : UObj) ∈
        listResources (⟨"capa-system", "aws", "InfrastructureProvider", "v0.5.0", ""⟩ : Provider).ns
          [(clusterctlProviderLabelName, (⟨"capa-system", "aws", "InfrastructureProvider", "v0.5.0", ""⟩ : Provider).name)]
          [⟨"apps", "v1", "Deployment", "capa-system", "capa-controller", [(clusterctlProviderLabelName, "aws")]⟩] ∧
      (⟨"apps", "v1", "Deployment", "capa-system", "capa-controller", [(clusterctlProviderLabelName, "aws")]⟩ : UObj).ns ∉
        ((listResources (⟨"capa-system", "aws", "InfrastructureProvider", "v0.5.0", ""⟩ : Provider).ns
          [(clusterctlProviderLabelName, (⟨"capa-system", "aws", "InfrastructureProvider", "v0.5.0", ""⟩ : Provider).name)]
          [⟨"apps", "v1", "Deployment", "capa-system", "capa-controller", [(clusterctlProviderLabelName, "aws")]⟩]).filter
            (fun x => x.kind == "Namespace")).map (fun x => x.name)) ∧
    (∀ fdNs fdCRD : Bool,
      (⟨"apps", "v1", "Deployment", "capa-system", "capa-controller", [(clusterctlProviderLabelName, "aws")]⟩ : UObj) ∈
        deleteTargets ⟨"capa-system", "aws", "InfrastructureProvider", "v0.5.0", ""⟩ fdNs fdCRD
          [⟨"apps", "v1", "Deployment", "capa-system", "capa-controller", [(clusterctlProviderLabelName, "aws")]⟩] →
      matchesLabels [(clusterctlProviderLabelName,
          (⟨"capa-system", "aws", "InfrastructureProvider", "v0.5.0", ""⟩ : Provider).name)]
        ⟨"apps", "v1", "Deployment", "capa-system", "capa-controller", [(clusterctlProviderLabelName, "aws")]⟩ = true) :=
  delete_targets_characterization
    ⟨"capa-system", "aws", "InfrastructureProvider", "v0.5.0", ""⟩
    [⟨"apps", "v1", "Deployment", "capa-system", "capa-controller", [(clusterctlProviderLabelName, "aws")]⟩]
    ⟨"apps", "v1", "Deployment", "capa-system", "capa-controller", [(clusterctlProviderLabelName, "aws")]⟩

/-- C5 counterexample to the claim as stated: a ConfigMap labeled with
the provider but living outside the provider's namespace is *not*
deleted by `Delete(provider, false, false)`, although its kind is
neither Namespace nor CustomResourceDefinition — the listing is scoped
to the provider's namespace for namespaced kinds. -/
theorem delete_out_of_scope_counterexample :
    deleteTargets ⟨"capa-system", "aws", "InfrastructureProvider", "v0.5.0", ""⟩ false false
      [⟨"", "v1", "ConfigMap", "other-ns", "cm1", [(clusterctlProviderLabelName, "aws")]⟩] = [] ∧
    matchesLabels [(clusterctlProviderLabelName, "aws")]
      ⟨"", "v1", "ConfigMap", "other-ns", "cm1", [(clusterctlProviderLabelName, "aws")]⟩ = true ∧
    (⟨"", "v1", "ConfigMap", "other-ns", "cm1", [(clusterctlProviderLabelName, "aws")]⟩ : UObj).kind ≠
      "CustomResourceDefinition" ∧
    (⟨"", "v1", "ConfigMap", "other-ns", "cm1", [(clusterctlProviderLabelName, "aws")]⟩ : UObj).kind ≠
      "Namespace" := by
  decide

/-! ## C8: components bundle invariants -/

theorem fixObjNamespace_kind (t : String) (o : UObj) :
    (fixObjNamespace t o).kind = o.kind := by
  simp only [fixObjNamespace]
  split <;> split <;> rfl

theorem fixObjNamespace_name_of_ns (t : String) (o : UObj) (h : o.kind = "Namespace") :
    (fixObjNamespace t o).name = t := by
  unfold fixObjNamespace
  have h1 : (o.kind == "Namespace") = true := by rw [beq_iff_eq]; exact h
  simp only [h1, if_true]
  have h2 : isResourceNamespaced ({ o with name := t } : UObj).kind = false := by
    show isResourceNamespaced o.kind = false
    rw [h]
    decide
  simp only [h2, Bool.false_eq_true, if_false]

theorem fixObjNamespace_ns_of_namespaced (t : String) (o : UObj)
    (h : isResourceNamespaced o.kind = true) :
    (fixObjNamespace t o).ns = t := by
  unfold fixObjNamespace
  have hk : (o.kind == "Namespace") = false := by
    rw [beq_eq_false_iff_ne]
    intro hc
    rw [hc] at h
    rw [show isResourceNamespaced "Namespace" = false from rfl] at h
    simp at h
  simp only [hk, Bool.false_eq_true, if_false]
  rw [if_pos h]

theorem addObjLabels_kind (n : String) (o : UObj) : (addObjLabels n o).kind = o.kind := rfl

theorem addObjLabels_name (n : String) (o : UObj) : (addObjLabels n o).name = o.name := rfl

theorem addObjLabels_ns (n : String) (o : UObj) : (addObjLabels n o).ns = o.ns := rfl

theorem countP_map_kind (f : UObj → UObj) (hf : ∀ o, (f o).kind = o.kind) (k : String) :
    ∀ l : List UObj,
      (l.map f).countP (fun o => o.kind == k) = l.countP (fun o => o.kind == k) := by
  intro l
  induction l with
  | nil => rfl
  | cons a l ih =>
    rw [List.map_cons, List.countP_cons, List.countP_cons, ih, hf]

theorem inspectLoop_err_of_acc (acc : String) (hacc : acc ≠ "") :
    ∀ objs : List UObj, 0 < objs.countP (fun o => o.kind == "Namespace") →
      ∃ msg, inspectTargetNamespaceLoop acc objs = .error msg := by
  intro objs
  induction objs with
  | nil => intro h; simp at h
  | cons o tl ih =>
    intro h
    cases hko : (o.kind == "Namespace")
    · rw [List.countP_cons, hko] at h
      simp only [inspectTargetNamespaceLoop, hko, Bool.false_eq_true, if_false]
      apply ih
      simpa using h
    · have hne : (acc != "") = true := by rw [bne_iff_ne]; exact hacc
      simp only [inspectTargetNamespaceLoop, hko, if_true, hne]
      exact ⟨_, rfl⟩

theorem inspect_err_of_two :
    ∀ objs : List UObj,
      (∀ o ∈ objs, o.kind = "Namespace" → o.name ≠ "") →
      2 ≤ objs.countP (fun o => o.kind == "Namespace") →
      ∃ msg, inspectTargetNamespace objs = .error msg := by
  intro objs
  induction objs with
  | nil => intro _ h; simp at h
  | cons o tl ih =>
    intro hnames h2
    cases hko : (o.kind == "Namespace")
    · rw [List.countP_cons, hko] at h2
      obtain ⟨msg, hmsg⟩ := ih (fun x hx => hnames x (List.mem_cons_of_mem o hx)) (by simpa using h2)
      refine ⟨msg, ?_⟩
      unfold inspectTargetNamespace at hmsg
      simp only [inspectTargetNamespace, inspectTargetNamespaceLoop, hko,
        Bool.false_eq_true, if_false]
      exact hmsg
    · have hne : o.name ≠ "" := hnames o (List.mem_cons_self o tl) (by rwa [beq_iff_eq] at hko)
      rw [List.countP_cons, hko] at h2
      simp only [if_true] at h2
      have hpos : 0 < tl.countP (fun x => x.kind == "Namespace") := by omega
      obtain ⟨msg, hmsg⟩ := inspectLoop_err_of_acc o.name hne tl hpos
      refine ⟨msg, ?_⟩
      simp only [inspectTargetNamespace, inspectTargetNamespaceLoop, hko, if_true]
      rw [if_neg (by simp)]
      exact hmsg

theorem inspect_ok_count_le_one {objs : List UObj} {d : String}
    (hnames : ∀ o ∈ objs, o.kind = "Namespace" → o.name ≠ "")
    (hok : inspectTargetNamespace objs = .ok d) :
    objs.countP (fun o => o.kind == "Namespace") ≤ 1 := by
  by_contra h
  obtain ⟨msg, hmsg⟩ := inspect_err_of_two objs hnames (by omega)
  rw [hok] at hmsg
  simp at hmsg

theorem newComponents_err_of_inspect_err {objs : List UObj} {tn wn pn msg : String}
    (h : inspectTargetNamespace objs = .error msg) :
    newComponents objs tn wn pn = .error msg := by
  unfold newComponents
  rw [h]
  rfl

theorem newComponents_eq_ok {objs : List UObj} {tn wn pn : String} {c : ComponentsModel}
    (h : newComponents objs tn wn pn = .ok c) :
    ∃ dtn, inspectTargetNamespace objs = .ok dtn ∧
      (if tn == "" then dtn else tn) ≠ "" ∧
      c = ⟨if tn == "" then dtn else tn, wn,
        addLabels (fixTargetNamespace objs (if tn == "" then dtn else tn)) pn⟩ := by
  cases hi : inspectTargetNamespace objs with
  | error e =>
    rw [newComponents_err_of_inspect_err hi] at h
    simp at h
  | ok dtn =>
    unfold newComponents at h
    rw [hi] at h
    by_cases ht : ((if tn == "" then dtn else tn) == "") = true
    · rw [show (Except.ok dtn >>= fun defaultTargetNamespace =>
          (if (if tn == "" then defaultTargetNamespace else tn) == "" then
            Except.error "target namespace can not be defaulted"
          else Except.ok ⟨if tn == "" then defaultTargetNamespace else tn, wn,
            addLabels (fixTargetNamespace objs (if tn == "" then defaultTargetNamespace else tn)) pn⟩ :
            Except String ComponentsModel)) =
          (if (if tn == "" then dtn else tn) == "" then
            Except.error "target namespace can not be defaulted"
          else Except.ok ⟨if tn == "" then dtn else tn, wn,
            addLabels (fixTargetNamespace objs (if tn == "" then dtn else tn)) pn⟩) from rfl] at h
      rw [if_pos ht] at h
      simp at h
    · rw [show (Except.ok dtn >>= fun defaultTargetNamespace =>
          (if (if tn == "" then defaultTargetNamespace else tn) == "" then
            Except.error "target namespace can not be defaulted"
          else Except.ok ⟨if tn == "" then defaultTargetNamespace else tn, wn,
            addLabels (fixTargetNamespace objs (if tn == "" then defaultTargetNamespace else tn)) pn⟩ :
            Except String ComponentsModel)) =
          (if (if tn == "" then dtn else tn) == "" then
            Except.error "target namespace can not be defaulted"
          else Except.ok ⟨if tn == "" then dtn else tn, wn,
            addLabels (fixTargetNamespace objs (if tn == "" then dtn else tn)) pn⟩) from rfl] at h
      rw [if_neg ht] at h
      refine ⟨dtn, rfl, ?_, ?_⟩
      · intro hc
        exact ht (by rw [beq_iff_eq]; exact hc)
      · cases h
        rfl

theorem mem_fixTargetNamespace {objs : List UObj} {t : String} {o : UObj}
    (h : o ∈ fixTargetNamespace objs t) :
    (∃ x ∈ objs, o = fixObjNamespace t x) ∨ o = ⟨"", "", "Namespace", "", t, []⟩ := by
  unfold fixTargetNamespace at h
  by_cases hany : objs.any (fun x => x.kind == "Namespace") = true
  · rw [if_pos hany] at h
    obtain ⟨x, hx, rfl⟩ := List.mem_map.mp h
    exact Or.inl ⟨x, hx, rfl⟩
  · rw [if_neg hany] at h
    rcases List.mem_append.mp h with h2 | h2
    · obtain ⟨x, hx, rfl⟩ := List.mem_map.mp h2
      exact Or.inl ⟨x, hx, rfl⟩
    · rw [List.mem_singleton] at h2
      exact Or.inr h2

theorem countP_ns_fix (objs : List UObj) (t : String) :
    (fixTargetNamespace objs t).countP (fun o => o.kind == "Namespace") =
      (if objs.any (fun o => o.kind == "Namespace") then
        objs.countP (fun o => o.kind == "Namespace")
      else objs.countP (fun o => o.kind == "Namespace") + 1) := by
  unfold fixTargetNamespace
  by_cases hany : objs.any (fun o => o.kind == "Namespace") = true
  · rw [if_pos hany, if_pos hany]
    exact countP_map_kind _ (fixObjNamespace_kind t) _ objs
  · rw [if_neg hany, if_neg hany]
    rw [List.countP_append, countP_map_kind _ (fixObjNamespace_kind t) _ objs]
    congr 1

/-- C8 (amended): provided every Namespace object in the parsed manifest
has a non-empty name, building a bundle from a manifest with two or more
Namespace objects fails before any bundle is produced, and every
successfully built bundle contains exactly one Namespace object, named
after the bundle's TargetNamespace, with every namespaced-kind object
forced into TargetNamespace.  (A Namespace object with an empty name
slips through the duplicate check, see the counterexample.) -/
theorem components_bundle_invariants (objs : List UObj) (tn wn pname : String)
    (hnames : ∀ o ∈ objs, o.kind = "Namespace" → o.name ≠ "") :
    (2 ≤ objs.countP (fun o => o.kind == "Namespace") →
      ∀ c, newComponents objs tn wn pname ≠ .ok c) ∧
    (∀ c, newComponents objs tn wn pname = .ok c →
      c.objs.countP (fun o => o.kind == "Namespace") = 1 ∧
      (∀ o ∈ c.objs, o.kind = "Namespace" → o.name = c.targetNamespace) ∧
      (∀ o ∈ c.objs, isResourceNamespaced o.kind = true → o.ns = c.targetNamespace)) := by
  constructor
  · intro h2 c hc
    obtain ⟨msg, hmsg⟩ := inspect_err_of_two objs hnames h2
    rw [newComponents_err_of_inspect_err hmsg] at hc
    exact Except.noConfusion hc
  · intro c hc
    obtain ⟨dtn, hi, hT, hceq⟩ := newComponents_eq_ok hc
    subst hceq
    have hcount_add : ∀ l : List UObj,
        (addLabels l pname).countP (fun o => o.kind == "Namespace") =
          l.countP (fun o => o.kind == "Namespace") :=
      fun l => countP_map_kind _ (addObjLabels_kind pname) _ l
    refine ⟨?_, ?_, ?_⟩
    · show (addLabels (fixTargetNamespace objs (if tn == "" then dtn else tn)) pname).countP
        (fun o => o.kind == "Namespace") = 1
      rw [hcount_add, countP_ns_fix]
      have hle := inspect_ok_count_le_one hnames hi
      by_cases hany : objs.any (fun o => o.kind == "Namespace") = true
      · rw [if_pos hany]
        obtain ⟨x, hx, hpx⟩ := List.any_eq_true.mp hany
        have hpos : 0 < objs.countP (fun o => o.kind == "Namespace") :=
          List.countP_pos_iff.mpr ⟨x, hx, hpx⟩
        omega
      · rw [if_neg hany]
        have hz : objs.countP (fun o => o.kind == "Namespace") = 0 := by
          rw [List.countP_eq_zero]
          intro a ha hpa
          exact hany (List.any_eq_true.mpr ⟨a, ha, hpa⟩)
        omega
    · show ∀ o ∈ addLabels (fixTargetNamespace objs (if tn == "" then dtn else tn)) pname,
        o.kind = "Namespace" → o.name = (if tn == "" then dtn else tn)
      intro o ho hk
      obtain ⟨o2, ho2, rfl⟩ := List.mem_map.mp ho
      rw [addObjLabels_kind] at hk
      rw [addObjLabels_name]
      rcases mem_fixTargetNamespace ho2 with ⟨x, _, rfl⟩ | rfl
      · rw [fixObjNamespace_kind] at hk
        exact fixObjNamespace_name_of_ns _ x hk
      · rfl
    · show ∀ o ∈ addLabels (fixTargetNamespace objs (if tn == "" then dtn else tn)) pname,
        isResourceNamespaced o.kind = true → o.ns = (if tn == "" then dtn else tn)
      intro o ho hk
      obtain ⟨o2, ho2, rfl⟩ := List.mem_map.mp ho
      rw [addObjLabels_kind] at hk
      rw [addObjLabels_ns]
      rcases mem_fixTargetNamespace ho2 with ⟨x, _, rfl⟩ | rfl
      · rw [fixObjNamespace_kind] at hk
        exact fixObjNamespace_ns_of_namespaced _ x hk
      · rw [show isResourceNamespaced
          (⟨"", "", "Namespace", "", if tn == "" then dtn else tn, []⟩ : UObj).kind = false
          from rfl] at hk
        exact Bool.noConfusion hk

/-- Witness for C8: a manifest with one named Namespace object and one
Deployment. -/
theorem components_bundle_invariants_witness :
    (∀ o ∈ ([⟨"", "v1", "Namespace", "", "capd-system", []⟩,
             ⟨"apps", "v1", "Deployment", "x", "mgr", []⟩] : List UObj),
      o.kind = "Namespace" → o.name ≠ "") ∧
    ((2 ≤ ([⟨"", "v1", "Namespace", "", "capd-system", []⟩,
            ⟨"apps", "v1", "Deployment", "x", "mgr", []⟩] : List UObj).countP
        (fun o => o.kind == "Namespace") →
      ∀ c, newComponents
        [⟨"", "v1", "Namespace", "", "capd-system", []⟩,
         ⟨"apps", "v1", "Deployment", "x", "mgr", []⟩] "" "" "docker" ≠ .ok c) ∧
     (∀ c, newComponents
        [⟨"", "v1", "Namespace", "", "capd-system", []⟩,
         ⟨"apps", "v1", "Deployment", "x", "mgr", []⟩] "" "" "docker" = .ok c →
       c.objs.countP (fun o => o.kind == "Namespace") = 1 ∧
       (∀ o ∈ c.objs, o.kind = "Namespace" → o.name = c.targetNamespace) ∧
       (∀ o ∈ c.objs, isResourceNamespaced o.kind = true → o.ns = c.targetNamespace))) :=
  ⟨by decide,
   components_bundle_invariants
     [⟨"", "v1", "Namespace", "", "capd-system", []⟩,
      ⟨"apps", "v1", "Deployment", "x", "mgr", []⟩] "" "" "docker" (by decide)⟩

/-- C8 counterexample to the claim as stated: a manifest holding two
Namespace objects, the first with an empty name, builds successfully —
and the resulting bundle holds two Namespace objects. -/
theorem components_two_namespaces_counterexample :
    newComponents [⟨"", "", "Namespace", "", "", []⟩,
                   ⟨"", "", "Namespace", "", "nsx", []⟩] "tgt" "" "aws" =
      .ok ⟨"tgt", "",
        [⟨"", "", "Namespace", "", "tgt",
          [(clusterctlLabelName, ""), (clusterctlProviderLabelName, "aws")]⟩,
         ⟨"", "", "Namespace", "", "tgt",
          [(clusterctlLabelName, ""), (clusterctlProviderLabelName, "aws")]⟩]⟩ ∧
    ([⟨"", "", "Namespace", "", "tgt",
        [(clusterctlLabelName, ""), (clusterctlProviderLabelName, "aws")]⟩,
      ⟨"", "", "Namespace", "", "tgt",
        [(clusterctlLabelName, ""), (clusterctlProviderLabelName, "aws")]⟩] : List UObj).countP
      (fun o => o.kind == "Namespace") = 2 :=
  ⟨rfl, by decide⟩

/-- C3 (amended): `Create` issues one create-or-update operation per
sorted object; the sorted list is the priority pass (Namespace, CRD,
StorageClass, PV, PVC, Secret, ConfigMap, ServiceAccount, LimitRange,
Pods, ReplicaSet, Endpoints, each kind in bundle order) followed by the
remaining objects in bundle order, where every remaining object is
emitted up to GVK/namespace/name identity — an object coinciding with
no other is emitted itself, and under pairwise distinct identities the
remainder is exactly the non-priority objects in bundle order — and in
particular a Namespace is emitted before a CRD, which is emitted before
every emitted carrier of a Deployment's identity (at least one exists),
for any input ordering. -/
theorem create_operations_priority_order
    (store bundleObjs rs : List UObj) (nsObj crdObj depObj : UObj)
    (hns : nsObj ∈ rs) (hcrd : crdObj ∈ rs) (hdep : depObj ∈ rs)
    (hk1 : nsObj.kind = "Namespace") (hk2 : crdObj.kind = "CustomResourceDefinition")
    (hk3 : depObj.kind = "Deployment") :
    ((createOps store bundleObjs).map (fun op => op.2) = sortResourcesForCreate bundleObjs) ∧
    (∃ rest, sortResourcesForCreate bundleObjs = prioritizedPart bundleObjs ++ rest ∧
       rest.Sublist bundleObjs ∧
       (∀ o ∈ rest, o.kind ∉ defaultCreatePriorities) ∧
       (∀ o ∈ bundleObjs, o.kind ∉ defaultCreatePriorities →
          ∃ r ∈ rest, sameObj r o = true) ∧
       (∀ o ∈ bundleObjs, o.kind ∉ defaultCreatePriorities →
          (∀ o2 ∈ bundleObjs, identKey o2 = identKey o → o2 = o) → o ∈ rest) ∧
       ((bundleObjs.map identKey).Nodup →
          rest = bundleObjs.filter (fun o => !(defaultCreatePriorities.contains o.kind)))) ∧
    (nsObj ∈ sortResourcesForCreate rs ∧ crdObj ∈ sortResourcesForCreate rs ∧
     ∃ d ∈ sortResourcesForCreate rs, sameObj d depObj = true) ∧
    (List.indexOf nsObj (sortResourcesForCreate rs) <
       List.indexOf crdObj (sortResourcesForCreate rs) ∧
     (∀ d ∈ sortResourcesForCreate rs, sameObj d depObj = true →
        List.indexOf crdObj (sortResourcesForCreate rs) <
          List.indexOf d (sortResourcesForCreate rs)) ∧
     List.indexOf crdObj (sortResourcesForCreate rs) <
       List.indexOf depObj (sortResourcesForCreate rs)) := by
  obtain ⟨restB, hSB, hsubB, hkB, hcovB⟩ := sortResources_structure bundleObjs
  obtain ⟨restR, hSR, hsubR, hkR, hcovR⟩ := sortResources_structure rs
  have hdecomp : sortResourcesForCreate rs =
      rs.filter (fun o => o.kind == "Namespace") ++
        (rs.filter (fun o => o.kind == "CustomResourceDefinition") ++
         ((["StorageClass", "PersistentVolume", "PersistentVolumeClaim", "Secret",
            "ConfigMap", "ServiceAccount", "LimitRange", "Pods", "ReplicaSet",
            "Endpoints"].map (fun p => rs.filter (fun o => o.kind == p))).flatten ++ restR)) := by
    rw [hSR, prioritizedPart_decomp, List.append_assoc, List.append_assoc]
  have hnsf : nsObj ∈ rs.filter (fun o => o.kind == "Namespace") :=
    List.mem_filter.mpr ⟨hns, by rw [beq_iff_eq]; exact hk1⟩
  have hcrdf : crdObj ∈ rs.filter (fun o => o.kind == "CustomResourceDefinition") :=
    List.mem_filter.mpr ⟨hcrd, by rw [beq_iff_eq]; exact hk2⟩
  have hcrd_not_ns : crdObj ∉ rs.filter (fun o => o.kind == "Namespace") :=
    not_mem_filter_kind (by rw [hk2]; decide)
  have h1 : List.indexOf nsObj (sortResourcesForCreate rs) =
      List.indexOf nsObj (rs.filter (fun o => o.kind == "Namespace")) := by
    rw [hdecomp]
    exact indexOf_append_of_mem _ _ hnsf
  have h1lt : List.indexOf nsObj (rs.filter (fun o => o.kind == "Namespace")) <
      (rs.filter (fun o => o.kind == "Namespace")).length :=
    List.indexOf_lt_length.mpr hnsf
  have h2 : List.indexOf crdObj (sortResourcesForCreate rs) =
      (rs.filter (fun o => o.kind == "Namespace")).length +
        List.indexOf crdObj (rs.filter (fun o => o.kind == "CustomResourceDefinition")) := by
    rw [hdecomp, indexOf_append_of_not_mem _ _ hcrd_not_ns,
      indexOf_append_of_mem _ _ hcrdf]
  have h2lt : List.indexOf crdObj (rs.filter (fun o => o.kind == "CustomResourceDefinition")) <
      (rs.filter (fun o => o.kind == "CustomResourceDefinition")).length :=
    List.indexOf_lt_length.mpr hcrdf
  have hdbound : ∀ d : UObj, d.kind = "Deployment" →
      List.indexOf d (sortResourcesForCreate rs) =
        (rs.filter (fun o => o.kind == "Namespace")).length +
          ((rs.filter (fun o => o.kind == "CustomResourceDefinition")).length +
            List.indexOf d
              ((["StorageClass", "PersistentVolume", "PersistentVolumeClaim", "Secret",
                  "ConfigMap", "ServiceAccount", "LimitRange", "Pods", "ReplicaSet",
                  "Endpoints"].map (fun p => rs.filter (fun o => o.kind == p))).flatten ++
                restR)) := by
    intro d hdk
    have hd_not_ns : d ∉ rs.filter (fun o => o.kind == "Namespace") :=
      not_mem_filter_kind (by rw [hdk]; decide)
    have hd_not_crd : d ∉ rs.filter (fun o => o.kind == "CustomResourceDefinition") :=
      not_mem_filter_kind (by rw [hdk]; decide)
    rw [hdecomp, indexOf_append_of_not_mem _ _ hd_not_ns,
      indexOf_append_of_not_mem _ _ hd_not_crd]
  refine ⟨createLoop_map_snd _ store,
    ⟨restB, hSB, hsubB, hkB, hcovB, ?_, ?_⟩, ⟨?_, ?_, ?_⟩, ?_, ?_, ?_⟩
  · intro o ho hko huni
    obtain ⟨r, hr, hs⟩ := hcovB o ho hko
    have hrb : r ∈ bundleObjs := hsubB.subset hr
    have hro : r = o := huni r hrb (sameObj_iff.mp hs)
    exact hro ▸ hr
  · intro hnd
    have hf := sort_eq_append_filter_of_nodup bundleObjs hnd
    rw [hSB] at hf
    exact List.append_cancel_left hf
  · rw [hSR]
    exact List.mem_append.mpr (Or.inl (self_mem_prioritizedPart hns (by rw [hk1]; decide)))
  · rw [hSR]
    exact List.mem_append.mpr (Or.inl (self_mem_prioritizedPart hcrd (by rw [hk2]; decide)))
  · obtain ⟨r, hr, hs⟩ := hcovR depObj hdep (by rw [hk3]; decide)
    refine ⟨r, ?_, hs⟩
    rw [hSR]
    exact List.mem_append.mpr (Or.inr hr)
  · omega
  · intro d _ hs
    have hdk : d.kind = "Deployment" := by rw [sameObj_kind_eq hs]; exact hk3
    have h4 := hdbound d hdk
    omega
  · have h3 := hdbound depObj hk3
    omega

/-- Witness for C3: a bundle listed as Deployment, CRD, Namespace is
reordered to Namespace, CRD, Deployment, with the Deployment's identity
actually emitted. -/
theorem create_operations_priority_order_witness :
    ((⟨"", "v1", "Namespace", "", "capi-system", []⟩ : UObj) ∈
      ([⟨"apps", "v1", "Deployment", "capi-system", "capi-controller-manager", []⟩,
        ⟨"apiextensions.k8s.io", "v1beta1", "CustomResourceDefinition", "", "clusters.x-k8s.io", []⟩,
        ⟨"", "v1", "Namespace", "", "capi-system", []⟩] : List UObj)) ∧
    ((⟨"apiextensions.k8s.io", "v1beta1", "CustomResourceDefinition", "", "clusters.x-k8s.io", []⟩ : UObj) ∈
      ([⟨"apps", "v1", "Deployment", "capi-system", "capi-controller-manager", []⟩,
        ⟨"apiextensions.k8s.io", "v1beta1", "CustomResourceDefinition", "", "clusters.x-k8s.io", []⟩,
        ⟨"", "v1", "Namespace", "", "capi-system", []⟩] : List UObj)) ∧
    ((⟨"apps", "v1", "Deployment", "capi-system", "capi-controller-manager", []⟩ : UObj) ∈
      ([⟨"apps", "v1", "Deployment", "capi-system", "capi-controller-manager", []⟩,
        ⟨"apiextensions.k8s.io", "v1beta1", "CustomResourceDefinition", "", "clusters.x-k8s.io", []⟩,
        ⟨"", "v1", "Namespace", "", "capi-system", []⟩] : List UObj)) ∧
    (⟨"", "v1", "Namespace", "", "capi-system", []⟩ : UObj).kind = "Namespace" ∧
    (⟨"apiextensions.k8s.io", "v1beta1", "CustomResourceDefinition", "", "clusters.x-k8s.io", []⟩ : UObj).kind =
      "CustomResourceDefinition" ∧
    (⟨"apps", "v1", "Deployment", "capi-system", "capi-controller-manager", []⟩ : UObj).kind =
      "Deployment" ∧
    (((createOps []
        [⟨"apps", "v1", "Deployment", "capi-system", "capi-controller-manager", []⟩,
         ⟨"apiextensions.k8s.io", "v1beta1", "CustomResourceDefinition", "", "clusters.x-k8s.io", []⟩,
         ⟨"", "v1", "Namespace", "", "capi-system", []⟩]).map (fun op => op.2) =
      sortResourcesForCreate
        [⟨"apps", "v1", "Deployment", "capi-system", "capi-controller-manager", []⟩,
         ⟨"apiextensions.k8s.io", "v1beta1", "CustomResourceDefinition", "", "clusters.x-k8s.io", []⟩,
         ⟨"", "v1", "Namespace", "", "capi-system", []⟩]) ∧
     (∃ rest, sortResourcesForCreate
        [⟨"apps", "v1", "Deployment", "capi-system", "capi-controller-manager", []⟩,
         ⟨"apiextensions.k8s.io", "v1beta1", "CustomResourceDefinition", "", "clusters.x-k8s.io", []⟩,
         ⟨"", "v1", "Namespace", "", "capi-system", []⟩] =
        prioritizedPart
          [⟨"apps", "v1", "Deployment", "capi-system", "capi-controller-manager", []⟩,
           ⟨"apiextensions.k8s.io", "v1beta1", "CustomResourceDefinition", "", "clusters.x-k8s.io", []⟩,
           ⟨"", "v1", "Namespace", "", "capi-system", []⟩] ++ rest ∧
        rest.Sublist
          [⟨"apps", "v1", "Deployment", "capi-system", "capi-controller-manager", []⟩,
           ⟨"apiextensions.k8s.io", "v1beta1", "CustomResourceDefinition", "", "clusters.x-k8s.io", []⟩,
           ⟨"", "v1", "Namespace", "", "capi-system", []⟩] ∧
        (∀ o ∈ rest, o.kind ∉ defaultCreatePriorities) ∧
        (∀ o ∈ ([⟨"apps", "v1", "Deployment", "capi-system", "capi-controller-manager", []⟩,
            ⟨"apiextensions.k8s.io", "v1beta1", "CustomResourceDefinition", "", "clusters.x-k8s.io", []⟩,
            ⟨"", "v1", "Namespace", "", "capi-system", []⟩] : List UObj),
          o.kind ∉ defaultCreatePriorities → ∃ r ∈ rest, sameObj r o = true) ∧
        (∀ o ∈ ([⟨"apps", "v1", "Deployment", "capi-system", "capi-controller-manager", []⟩,
            ⟨"apiextensions.k8s.io", "v1beta1", "CustomResourceDefinition", "", "clusters.x-k8s.io", []⟩,
            ⟨"", "v1", "Namespace", "", "capi-system", []⟩] : List UObj),
          o.kind ∉ defaultCreatePriorities →
          (∀ o2 ∈ ([⟨"apps", "v1", "Deployment", "capi-system", "capi-controller-manager", []⟩,
              ⟨"apiextensions.k8s.io", "v1beta1", "CustomResourceDefinition", "", "clusters.x-k8s.io", []⟩,
              ⟨"", "v1", "Namespace", "", "capi-system", []⟩] : List UObj),
            identKey o2 = identKey o → o2 = o) → o ∈ rest) ∧
        ((([⟨"apps", "v1", "Deployment", "capi-system", "capi-controller-manager", []⟩,
            ⟨"apiextensions.k8s.io", "v1beta1", "CustomResourceDefinition", "", "clusters.x-k8s.io", []⟩,
            ⟨"", "v1", "Namespace", "", "capi-system", []⟩] : List UObj).map identKey).Nodup →
          rest = ([⟨"apps", "v1", "Deployment", "capi-system", "capi-controller-manager", []⟩,
            ⟨"apiextensions.k8s.io", "v1beta1", "CustomResourceDefinition", "", "clusters.x-k8s.io", []⟩,
            ⟨"", "v1", "Namespace", "", "capi-system", []⟩] : List UObj).filter
              (fun o => !(defaultCreatePriorities.contains o.kind)))) ∧
     ((⟨"", "v1", "Namespace", "", "capi-system", []⟩ : UObj) ∈ sortResourcesForCreate
        [⟨"apps", "v1", "Deployment", "capi-system", "capi-controller-manager", []⟩,
         ⟨"apiextensions.k8s.io", "v1beta1", "CustomResourceDefinition", "", "clusters.x-k8s.io", []⟩,
         ⟨"", "v1", "Namespace", "", "capi-system", []⟩] ∧
      (⟨"apiextensions.k8s.io", "v1beta1", "CustomResourceDefinition", "", "clusters.x-k8s.io", []⟩ : UObj) ∈
        sortResourcesForCreate
          [⟨"apps", "v1", "Deployment", "capi-system", "capi-controller-manager", []⟩,
           ⟨"apiextensions.k8s.io", "v1beta1", "CustomResourceDefinition", "", "clusters.x-k8s.io", []⟩,
           ⟨"", "v1", "Namespace", "", "capi-system", []⟩] ∧
      ∃ d ∈ sortResourcesForCreate
          [⟨"apps", "v1", "Deployment", "capi-system", "capi-controller-manager", []⟩,
           ⟨"apiextensions.k8s.io", "v1beta1", "CustomResourceDefinition", "", "clusters.x-k8s.io", []⟩,
           ⟨"", "v1", "Namespace", "", "capi-system", []⟩],
        sameObj d ⟨"apps", "v1", "Deployment", "capi-system", "capi-controller-manager", []⟩ = true) ∧
     (List.indexOf (⟨"", "v1", "Namespace", "", "capi-system", []⟩ : UObj)
        (sortResourcesForCreate
          [⟨"apps", "v1", "Deployment", "capi-system", "capi-controller-manager", []⟩,
           ⟨"apiextensions.k8s.io", "v1beta1", "CustomResourceDefinition", "", "clusters.x-k8s.io", []⟩,
           ⟨"", "v1", "Namespace", "", "capi-system", []⟩]) <
       List.indexOf (⟨"apiextensions.k8s.io", "v1beta1", "CustomResourceDefinition", "", "clusters.x-k8s.io", []⟩ : UObj)
        (sortResourcesForCreate
          [⟨"apps", "v1", "Deployment", "capi-system", "capi-controller-manager", []⟩,
           ⟨"apiextensions.k8s.io", "v1beta1", "CustomResourceDefinition", "", "clusters.x-k8s.io", []⟩,
           ⟨"", "v1", "Namespace", "", "capi-system", []⟩]) ∧
      (∀ d ∈ sortResourcesForCreate
          [⟨"apps", "v1", "Deployment", "capi-system", "capi-controller-manager", []⟩,
           ⟨"apiextensions.k8s.io", "v1beta1", "CustomResourceDefinition", "", "clusters.x-k8s.io", []⟩,
           ⟨"", "v1", "Namespace", "", "capi-system", []⟩],
        sameObj d ⟨"apps", "v1", "Deployment", "capi-system", "capi-controller-manager", []⟩ = true →
        List.indexOf (⟨"apiextensions.k8s.io", "v1beta1", "CustomResourceDefinition", "", "clusters.x-k8s.io", []⟩ : UObj)
          (sortResourcesForCreate
            [⟨"apps", "v1", "Deployment", "capi-system", "capi-controller-manager", []⟩,
             ⟨"apiextensions.k8s.io", "v1beta1", "CustomResourceDefinition", "", "clusters.x-k8s.io", []⟩,
             ⟨"", "v1", "Namespace", "", "capi-system", []⟩]) <
          List.indexOf d
            (sortResourcesForCreate
              [⟨"apps", "v1", "Deployment", "capi-system", "capi-controller-manager", []⟩,
               ⟨"apiextensions.k8s.io", "v1beta1", "CustomResourceDefinition", "", "clusters.x-k8s.io", []⟩,
               ⟨"", "v1", "Namespace", "", "capi-system", []⟩])) ∧
      List.indexOf (⟨"apiextensions.k8s.io", "v1beta1", "CustomResourceDefinition", "", "clusters.x-k8s.io", []⟩ : UObj)
        (sortResourcesForCreate
          [⟨"apps", "v1", "Deployment", "capi-system", "capi-controller-manager", []⟩,
           ⟨"apiextensions.k8s.io", "v1beta1", "CustomResourceDefinition", "", "clusters.x-k8s.io", []⟩,
           ⟨"", "v1", "Namespace", "", "capi-system", []⟩]) <
        List.indexOf (⟨"apps", "v1", "Deployment", "capi-system", "capi-controller-manager", []⟩ : UObj)
          (sortResourcesForCreate
            [⟨"apps", "v1", "Deployment", "capi-system", "capi-controller-manager", []⟩,
             ⟨"apiextensions.k8s.io", "v1beta1", "CustomResourceDefinition", "", "clusters.x-k8s.io", []⟩,
             ⟨"", "v1", "Namespace", "", "capi-system", []⟩]))) :=
  ⟨by decide, by decide, by decide, by decide, by decide, by decide,
   create_operations_priority_order [] _ _ _ _ _
     (by decide) (by decide) (by decide) (by decide) (by decide) (by decide)⟩
